import Mathlib

/-!
Shallow embedding of the `webex_best_sdk` repository, covering:
  * the v2.1 planner/executor (`Space_OdT/v21/engine.py`): `_build_plan`,
    `_resolve_*` helpers, `_read_current_state`, `_apply_action`,
    `run_single_action`;
  * the Space_OdT export runner (`Space_OdT/export_runner.py`): `run_exports`;
  * the SpaceOdT CLI (`SpaceOdT/cli.py`): `resolve_token`, `module_list`,
    `export_module`, `run_exports`, `main`;
  * the SpaceOdT configuration contract (`SpaceOdT/config.py`);
  * the CSV-dependencies launcher retry helper (modelled from the spec and its
    unit test, the module itself not being part of the sources).

Python dictionaries that only ever hold CSV/string data are embedded as
association lists `List (String × String)`; JSON-ish snapshot values are
embedded as the inductive type `Val`.  Python truthiness on such string maps
(`if payload.get(k):`) is the test "key present with a non-empty value".
-/

mutual

/-- A JSON-like value, used for remote-state snapshots and policy profiles. -/
inductive Val where
  | null
  | str (s : String)
  | boolean (b : Bool)
  | num (n : Int)
  | arr (xs : ValArr)
  | obj (fields : ValObj)
deriving DecidableEq, Repr

/-- A list of JSON-like values (a JSON array). -/
inductive ValArr where
  | nil
  | cons (head : Val) (tail : ValArr)
deriving DecidableEq, Repr

/-- The field list of a JSON-like object, in insertion order. -/
inductive ValObj where
  | nil
  | cons (key : String) (value : Val) (tail : ValObj)
deriving DecidableEq, Repr

end

/-- Build a JSON array value from a Lean list. -/
def ValArr.ofList : List Val → ValArr
  | [] => .nil
  | x :: xs => .cons x (ValArr.ofList xs)

/-- An action payload: a Python `dict[str, str]` loaded from CSV rows,
keyed association list preserving first occurrence. -/
abbrev Payload := List (String × String)

namespace Payload

/-- `payload.get(key)`: `none` when the key is absent. -/
def get (p : Payload) (key : String) : Option String :=
  (List.find? (fun kv => kv.1 = key) p).map (·.2)

/-- `payload[key] = value`: replace in place, or append when absent
(Python dict update semantics). -/
def set (p : Payload) (key value : String) : Payload :=
  match p with
  | [] => [(key, value)]
  | (k, v) :: rest =>
      if k = key then (k, value) :: rest else (k, v) :: set rest key value

end Payload

/-- Python truthiness of `payload.get(key)`: present and non-empty. -/
def pyTruthy : Option String → Bool
  | some s => s ≠ ""
  | none => false

/-- Python `a or b` for optional strings (empty string is falsy). -/
def pyOr (a b : Option String) : Option String :=
  if pyTruthy a then a else b

/-- Python `a or d` with a (truthy) string default. -/
def pyOrD (a : Option String) (d : String) : String :=
  match a with
  | some s => if s = "" then d else s
  | none => d

/-- Python `str.strip()`: drop leading and trailing whitespace (on the
character list, so that proofs can evaluate it). -/
def pyStrip (s : String) : String :=
  String.mk (((s.data.dropWhile Char.isWhitespace).reverse.dropWhile Char.isWhitespace).reverse)

/-- Python `str.split('|')` (on the character list). -/
def pySplitPipe (s : String) : List String :=
  (s.data.splitOn '|').map (fun cs => String.mk cs)

/-- Python `str(x)` on an optional string (`None` prints as `None`). -/
def pyStrOfOpt : Option String → String
  | some s => s
  | none => "None"

/-- A Python dict with one entry. -/
def obj1 (k : String) (v : Val) : Val := Val.obj (.cons k v .nil)

/-- A Python dict with two entries. -/
def obj2 (k1 : String) (v1 : Val) (k2 : String) (v2 : Val) : Val :=
  Val.obj (.cons k1 v1 (.cons k2 v2 .nil))

/-- An optional string as a JSON value (`None` becomes `null`). -/
def optStrVal : Option String → Val
  | some s => .str s
  | none => .null

/-- Replace-or-append on a string-keyed association list (dict update). -/
def assocSet {α : Type} (m : List (String × α)) (key : String) (v : α) : List (String × α) :=
  match m with
  | [] => [(key, v)]
  | (k, w) :: rest => if k = key then (k, v) :: rest else (k, w) :: assocSet rest key v

/-- Dict lookup on a string-keyed association list. -/
def assocGet {α : Type} (m : List (String × α)) (key : String) : Option α :=
  (List.find? (fun kv => kv.1 = key) m).map (·.2)

namespace V21

/-- `Space_OdT.v21.models.EntityType` (values as used by `engine.py`). -/
inductive EntityType where
  | LOCATION
  | USER
  | WORKSPACE
deriving DecidableEq, Repr

/-- `Space_OdT.v21.models.Stage`: the thirteen stages handled by `engine.py`'s
`_read_current_state` and `_apply_action`. -/
inductive Stage where
  | LOCATION_CREATE_AND_ACTIVATE
  | LOCATION_ROUTE_GROUP_RESOLVE
  | LOCATION_PSTN_CONFIGURE
  | LOCATION_NUMBERS_ADD_DISABLED
  | LOCATION_MAIN_DDI_ASSIGN
  | LOCATION_INTERNAL_CALLING_CONFIG
  | LOCATION_OUTGOING_PERMISSION_DEFAULT
  | USER_LEGACY_INTERCOM_SECONDARY
  | USER_LEGACY_FORWARD_PREFIX_53
  | USER_OUTGOING_PERMISSION_OVERRIDE
  | WORKSPACE_LEGACY_INTERCOM_SECONDARY
  | WORKSPACE_LEGACY_FORWARD_PREFIX_53
  | WORKSPACE_OUTGOING_PERMISSION_OVERRIDE
deriving DecidableEq, Repr

/-- A planned action `(entity_type, entity_key, stage, mode, details, payload)`. -/
structure PlannedAction where
  entity_type : EntityType
  entity_key : String
  stage : Stage
  mode : String
  details : String
  payload : Payload
deriving DecidableEq, Repr

/-- A location row from `input_locations.csv` (fields read by `_build_plan`). -/
structure LocationRecord where
  location_id : Option String
  location_name : String
  default_outgoing_profile : Option String
  payload : Payload
deriving DecidableEq, Repr

/-- A user row from `input_users.csv` (fields read by `_build_plan`). -/
structure UserRecord where
  user_id : Option String
  user_email : String
  outgoing_profile : Option String
  payload : Payload
deriving DecidableEq, Repr

/-- A workspace row from `input_workspaces.csv` (fields read by `_build_plan`). -/
structure WorkspaceRecord where
  workspace_id : Option String
  workspace_name : String
  outgoing_profile : Option String
  payload : Payload
deriving DecidableEq, Repr

/-- `static_policy.json` as read by the engine. -/
structure Policy where
  default_outgoing_profile : Option String
  outgoing_profiles : List (String × Val)
deriving DecidableEq, Repr

/-- The location block of `_build_plan`: the seven location stages, emitted
unconditionally for every location row. -/
def planLocation (policy : Policy) (location : LocationRecord) : List PlannedAction :=
  let location_key := pyOrD location.location_id location.location_name
  let outgoing := pyOrD location.default_outgoing_profile (pyOrD policy.default_outgoing_profile "profile_2")
  let base_payload := Payload.set location.payload "default_outgoing_profile" outgoing
  [ ⟨EntityType.LOCATION, location_key, Stage.LOCATION_CREATE_AND_ACTIVATE, "apply", "Crear/activar sede y preparar Webex Calling", base_payload⟩,
    ⟨EntityType.LOCATION, location_key, Stage.LOCATION_ROUTE_GROUP_RESOLVE, "apply", "Resolver routeGroupId requerido para PSTN", base_payload⟩,
    ⟨EntityType.LOCATION, location_key, Stage.LOCATION_PSTN_CONFIGURE, "apply", "Configurar PSTN en sede", base_payload⟩,
    ⟨EntityType.LOCATION, location_key, Stage.LOCATION_NUMBERS_ADD_DISABLED, "apply", "Alta de DDI en estado desactivado", base_payload⟩,
    ⟨EntityType.LOCATION, location_key, Stage.LOCATION_MAIN_DDI_ASSIGN, "apply", "Asignar DDI cabecera a la sede", base_payload⟩,
    ⟨EntityType.LOCATION, location_key, Stage.LOCATION_INTERNAL_CALLING_CONFIG, "apply", "Configurar llamadas internas", base_payload⟩,
    ⟨EntityType.LOCATION, location_key, Stage.LOCATION_OUTGOING_PERMISSION_DEFAULT, "apply", "Aplicar perfil saliente por defecto: " ++ outgoing, base_payload⟩ ]

/-- The user block of `_build_plan`: two unconditional stages plus the
outgoing-permission override exactly when `user.outgoing_profile` is truthy. -/
def planUser (user : UserRecord) : List PlannedAction :=
  let user_key := pyOrD user.user_id user.user_email
  let base_payload := user.payload
  [ ⟨EntityType.USER, user_key, Stage.USER_LEGACY_INTERCOM_SECONDARY, "apply", "Agregar intercom legacy secundario", base_payload⟩,
    ⟨EntityType.USER, user_key, Stage.USER_LEGACY_FORWARD_PREFIX_53, "apply", "Configurar desvío legacy con prefijo 53", base_payload⟩ ]
  ++ (if pyTruthy user.outgoing_profile then
        [ ⟨EntityType.USER, user_key, Stage.USER_OUTGOING_PERMISSION_OVERRIDE, "apply",
           "Aplicar perfil saliente no-default: " ++ (user.outgoing_profile.getD ""), base_payload⟩ ]
      else [])

/-- The workspace block of `_build_plan`: two unconditional stages plus the
outgoing-permission override exactly when `workspace.outgoing_profile` is truthy. -/
def planWorkspace (workspace : WorkspaceRecord) : List PlannedAction :=
  let workspace_key := pyOrD workspace.workspace_id workspace.workspace_name
  let base_payload := workspace.payload
  [ ⟨EntityType.WORKSPACE, workspace_key, Stage.WORKSPACE_LEGACY_INTERCOM_SECONDARY, "apply", "Agregar intercom legacy secundario", base_payload⟩,
    ⟨EntityType.WORKSPACE, workspace_key, Stage.WORKSPACE_LEGACY_FORWARD_PREFIX_53, "apply", "Configurar desvío legacy con prefijo 53", base_payload⟩ ]
  ++ (if pyTruthy workspace.outgoing_profile then
        [ ⟨EntityType.WORKSPACE, workspace_key, Stage.WORKSPACE_OUTGOING_PERMISSION_OVERRIDE, "apply",
           "Aplicar perfil saliente no-default: " ++ (workspace.outgoing_profile.getD ""), base_payload⟩ ]
      else [])

/-- `V21Runner._build_plan`: locations first, then users, then workspaces,
in input order, with the fixed per-entity stage blocks above. -/
def build_plan (locations : List LocationRecord) (users : List UserRecord)
    (workspaces : List WorkspaceRecord) (policy : Policy) : List PlannedAction :=
  (locations.map (planLocation policy)).flatten
    ++ (users.map planUser).flatten
    ++ (workspaces.map planWorkspace).flatten

/-- The remote Webex API as seen by the engine.  Read/list endpoints return
already-serialized snapshots (the engine pipes every response through
`_safe_model`); lookup endpoints return the resolved platform ID. -/
structure Api where
  locationsByName : String → Option String
  routeGroupList : String → List (String × String)
  peopleListByEmail : String → Option String
  workspacesList : String → List (String × String)
  locationsCreate : String → String
  locationDetails : String → Val
  telephonyLocationDetails : String → Val
  pstnList : String → List Val
  locationPhoneNumbers : String → List Val
  internalDialingRead : String → Val
  locationPermissionsOutRead : String → Val
  personNumbersRead : String → Val
  personForwardingRead : String → Val
  personPermissionsOutRead : String → Val
  workspaceNumbersRead : String → Val
  workspaceForwardingRead : String → Val
  workspacePermissionsOutRead : String → Val

/-- `payload.get('org_id') or None`. -/
def orgIdOf (p : Payload) : Option String :=
  if pyTruthy (p.get "org_id") then p.get "org_id" else none

/-- `V21Runner._resolve_location_id`.  Returns the (possibly enriched) payload,
the resolved ID, and the number of remote lookups performed. -/
def resolve_location_id (api : Api) (p : Payload) : Payload × Option String × Nat :=
  if pyTruthy (p.get "location_id") then (p, p.get "location_id", 0)
  else
    match p.get "location_name" with
    | none => (p, none, 0)
    | some name =>
        if name = "" then (p, none, 0)
        else
          match api.locationsByName name with
          | some lid => (p.set "location_id" lid, some lid, 1)
          | none => (p, none, 1)

/-- `V21Runner._require_location_id`: resolve, then raise `ValueError` when the
resolution yields nothing truthy. -/
def require_location_id (api : Api) (p : Payload) : Payload × Except String String × Nat :=
  match resolve_location_id api p with
  | (p1, r, n) =>
      if pyTruthy r then (p1, .ok (r.getD ""), n)
      else (p1, .error ("location not found: " ++ pyStrOfOpt (p1.get "location_name")), n)

/-- First route group whose `name` equals the requested name (the `for` loop in
`_resolve_route_group_id`). -/
def findRouteGroup (name : String) : List (String × String) → Option String
  | [] => none
  | (n, rid) :: rest => if n = name then some rid else findRouteGroup name rest

/-- `V21Runner._resolve_route_group_id`. -/
def resolve_route_group_id (api : Api) (p : Payload) : Payload × Option String × Nat :=
  if pyTruthy (p.get "route_group_id") then (p, p.get "route_group_id", 0)
  else
    match p.get "route_group_name" with
    | none => (p, none, 0)
    | some rg_name =>
        if rg_name = "" then (p, none, 0)
        else
          match findRouteGroup rg_name (api.routeGroupList rg_name) with
          | some rid => (p.set "route_group_id" rid, some rid, 1)
          | none => (p, none, 1)

/-- `V21Runner._require_route_group_id`. -/
def require_route_group_id (api : Api) (p : Payload) : Payload × Except String String × Nat :=
  match resolve_route_group_id api p with
  | (p1, r, n) =>
      if pyTruthy r then (p1, .ok (r.getD ""), n)
      else (p1, .error "route_group_id is required (direct value or resolvable route_group_name)", n)

/-- `V21Runner._resolve_person_id` (`next(api.people.list(email=email), None)`). -/
def resolve_person_id (api : Api) (p : Payload) : Payload × Option String × Nat :=
  if pyTruthy (p.get "user_id") then (p, p.get "user_id", 0)
  else
    match p.get "user_email" with
    | none => (p, none, 0)
    | some email =>
        if email = "" then (p, none, 0)
        else
          match api.peopleListByEmail email with
          | some pid => (p.set "user_id" pid, some pid, 1)
          | none => (p, none, 1)

/-- First workspace whose `display_name` equals the requested name. -/
def findWorkspace (name : String) : List (String × String) → Option String
  | [] => none
  | (n, wid) :: rest => if n = name then some wid else findWorkspace name rest

/-- `V21Runner._resolve_workspace_id`. -/
def resolve_workspace_id (api : Api) (p : Payload) : Payload × Option String × Nat :=
  if pyTruthy (p.get "workspace_id") then (p, p.get "workspace_id", 0)
  else
    match p.get "workspace_name" with
    | none => (p, none, 0)
    | some workspace_name =>
        if workspace_name = "" then (p, none, 0)
        else
          match findWorkspace workspace_name (api.workspacesList workspace_name) with
          | some wid => (p.set "workspace_id" wid, some wid, 1)
          | none => (p, none, 1)

/-- `V21Runner._split_pipe`. -/
def split_pipe (raw : Option String) : List String :=
  match raw with
  | none => []
  | some s =>
      if s = "" then []
      else ((pySplitPipe s).map pyStrip).filter (fun item => item ≠ "")

/-- `V21Runner._legacy_target`. -/
def legacy_target (p : Payload) : Option String :=
  if pyTruthy (p.get "legacy_forward_target") then p.get "legacy_forward_target"
  else
    let ext := pyStrip (pyOrD (p.get "extension") "")
    if ext = "" then none
    else
      let pfx := pyStrip (pyOrD (p.get "legacy_forward_prefix") "53")
      if ext.data.head? = some '8' then some ("+" ++ pfx ++ String.mk (ext.data.drop 1))
      else some ("+" ++ pfx ++ ext)

/-- `V21Runner._outgoing_profile_settings`.  Payloads hold CSV strings, so the
`isinstance(profile, dict)` branch of the source is unreachable here; a profile
name outside the policy's `outgoing_profiles` raises `ValueError`. -/
def outgoing_profile_settings (policy : Policy) (p : Payload) : Except String Val :=
  let profile := pyOr (p.get "outgoing_profile") (pyOr (p.get "default_outgoing_profile") policy.default_outgoing_profile)
  match profile.bind (fun s => (policy.outgoing_profiles.find? (fun kv => kv.1 = s)).map (·.2)) with
  | some v => .ok v
  | none => .error ("Outgoing profile not found in static_policy.json: " ++ pyStrOfOpt profile)

/-- `V21Runner._read_current_state`, threading the payload that the resolvers
mutate in place.  The five location stages that go through
`_require_location_id` propagate its `ValueError` when the location is absent;
the remaining stages swallow absence as a `None` snapshot. -/
def read_current_state (api : Api) (stage : Stage) (p : Payload) : Payload × Except String Val :=
  match stage with
  | .LOCATION_CREATE_AND_ACTIVATE =>
      match resolve_location_id api p with
      | (p1, r, _) =>
          if pyTruthy r then
            let lid := r.getD ""
            (p1, .ok (obj2 "location" (api.locationDetails lid) "calling" (api.telephonyLocationDetails lid)))
          else (p1, .ok (obj2 "location" .null "calling" .null))
  | .LOCATION_ROUTE_GROUP_RESOLVE =>
      match resolve_route_group_id api p with
      | (p1, r, _) => (p1, .ok (obj1 "route_group_id" (optStrVal r)))
  | .LOCATION_PSTN_CONFIGURE =>
      match require_location_id api p with
      | (p1, .error e, _) => (p1, .error e)
      | (p1, .ok lid, _) => (p1, .ok (obj1 "pstn_options" (Val.arr (ValArr.ofList (api.pstnList lid)))))
  | .LOCATION_NUMBERS_ADD_DISABLED =>
      match require_location_id api p with
      | (p1, .error e, _) => (p1, .error e)
      | (p1, .ok lid, _) => (p1, .ok (obj1 "numbers" (Val.arr (ValArr.ofList (api.locationPhoneNumbers lid)))))
  | .LOCATION_MAIN_DDI_ASSIGN =>
      match require_location_id api p with
      | (p1, .error e, _) => (p1, .error e)
      | (p1, .ok lid, _) => (p1, .ok (api.telephonyLocationDetails lid))
  | .LOCATION_INTERNAL_CALLING_CONFIG =>
      match require_location_id api p with
      | (p1, .error e, _) => (p1, .error e)
      | (p1, .ok lid, _) => (p1, .ok (api.internalDialingRead lid))
  | .LOCATION_OUTGOING_PERMISSION_DEFAULT =>
      match require_location_id api p with
      | (p1, .error e, _) => (p1, .error e)
      | (p1, .ok lid, _) => (p1, .ok (api.locationPermissionsOutRead lid))
  | .USER_LEGACY_INTERCOM_SECONDARY =>
      match resolve_person_id api p with
      | (p1, r, _) =>
          if pyTruthy r then (p1, .ok (api.personNumbersRead (r.getD "")))
          else (p1, .ok (obj1 "person" .null))
  | .USER_LEGACY_FORWARD_PREFIX_53 =>
      match resolve_person_id api p with
      | (p1, r, _) =>
          if pyTruthy r then (p1, .ok (api.personForwardingRead (r.getD "")))
          else (p1, .ok (obj1 "person" .null))
  | .USER_OUTGOING_PERMISSION_OVERRIDE =>
      match resolve_person_id api p with
      | (p1, r, _) =>
          if pyTruthy r then (p1, .ok (api.personPermissionsOutRead (r.getD "")))
          else (p1, .ok (obj1 "person" .null))
  | .WORKSPACE_LEGACY_INTERCOM_SECONDARY =>
      match resolve_workspace_id api p with
      | (p1, r, _) =>
          if pyTruthy r then (p1, .ok (api.workspaceNumbersRead (r.getD "")))
          else (p1, .ok (obj1 "workspace" .null))
  | .WORKSPACE_LEGACY_FORWARD_PREFIX_53 =>
      match resolve_workspace_id api p with
      | (p1, r, _) =>
          if pyTruthy r then (p1, .ok (api.workspaceForwardingRead (r.getD "")))
          else (p1, .ok (obj1 "workspace" .null))
  | .WORKSPACE_OUTGOING_PERMISSION_OVERRIDE =>
      match resolve_workspace_id api p with
      | (p1, r, _) =>
          if pyTruthy r then (p1, .ok (api.workspacePermissionsOutRead (r.getD "")))
          else (p1, .ok (obj1 "workspace" .null))

/-- One mutating SDK call issued by `_apply_action` (read/list calls are not
side effects and are not traced here). -/
inductive SdkCall where
  | locations_create (name : String)
  | enable_for_calling (name : String)
  | pstn_configure (location_id route_group_id : String) (org_id : Option String)
  | numbers_add (location_id : String) (phone_numbers : List String) (org_id : Option String)
  | location_update (location_id main_number : String) (org_id : Option String)
  | internal_dialing_update (location_id : String) (enabled : Bool)
      (route_id route_type route_name : Option String) (org_id : Option String)
  | location_permissions_out_configure (entity_id : String) (settings : Val) (org_id : Option String)
  | person_numbers_update (person_id direct_number : String)
  | person_forwarding_configure (entity_id destination : String)
  | person_permissions_out_configure (entity_id : String) (settings : Val)
  | workspace_numbers_update (workspace_id direct_number : String)
  | workspace_forwarding_configure (entity_id destination : String)
  | workspace_permissions_out_configure (entity_id : String) (settings : Val)
deriving DecidableEq, Repr

/-- `V21Runner._apply_location_create_and_activate`: create the location only
when it cannot be resolved, then enable calling and memoize the new ID. -/
def apply_location_create_and_activate (api : Api) (p : Payload) : Payload × Except String (List SdkCall) :=
  match resolve_location_id api p with
  | (p1, r, _) =>
      if pyTruthy r then (p1, .ok [])
      else
        match p1.get "location_name" with
        | none => (p1, .error "KeyError: location_name")
        | some name =>
            let new_location_id := api.locationsCreate name
            (Payload.set p1 "location_id" new_location_id,
             .ok [.locations_create name, .enable_for_calling name])

/-- `V21Runner._apply_action`: the stage's single side-effecting call, with the
payload threading of the in-place resolver memoization.  Returns the mutating
SDK calls issued, or the stringified exception. -/
def apply_action (api : Api) (policy : Policy) (stage : Stage) (p : Payload) : Payload × Except String (List SdkCall) :=
  match stage with
  | .LOCATION_CREATE_AND_ACTIVATE => apply_location_create_and_activate api p
  | .LOCATION_ROUTE_GROUP_RESOLVE =>
      match resolve_route_group_id api p with
      | (p1, _, _) => (p1, .ok [])
  | .LOCATION_PSTN_CONFIGURE =>
      match require_location_id api p with
      | (p1, .error e, _) => (p1, .error e)
      | (p1, .ok lid, _) =>
          match require_route_group_id api p1 with
          | (p2, .error e, _) => (p2, .error e)
          | (p2, .ok rgid, _) => (p2, .ok [.pstn_configure lid rgid (orgIdOf p2)])
  | .LOCATION_NUMBERS_ADD_DISABLED =>
      match require_location_id api p with
      | (p1, .error e, _) => (p1, .error e)
      | (p1, .ok lid, _) =>
          let numbers := split_pipe (p1.get "location_numbers")
          if numbers = [] then (p1, .ok [])
          else (p1, .ok [.numbers_add lid numbers (orgIdOf p1)])
  | .LOCATION_MAIN_DDI_ASSIGN =>
      match require_location_id api p with
      | (p1, .error e, _) => (p1, .error e)
      | (p1, .ok lid, _) =>
          let main_number := p1.get "main_number"
          if pyTruthy main_number then (p1, .ok [.location_update lid (main_number.getD "") (orgIdOf p1)])
          else (p1, .ok [])
  | .LOCATION_INTERNAL_CALLING_CONFIG =>
      match require_location_id api p with
      | (p1, .error e, _) => (p1, .error e)
      | (p1, .ok lid, _) =>
          match p1.get "internal_dialing_enabled" with
          | none => (p1, .ok [])
          | some enabled =>
              if enabled ≠ "" then
                match
                  (if pyTruthy (p1.get "unknown_extension_route_id") then
                     (p1, Except.ok ((p1.get "unknown_extension_route_id").getD ""), 0)
                   else require_route_group_id api p1) with
                | (p2, .error e, _) => (p2, .error e)
                | (p2, .ok route_id, _) =>
                    let route_type := pyOrD (p2.get "unknown_extension_route_type") "ROUTE_GROUP"
                    let route_name := p2.get "unknown_extension_route_name"
                    (p2, .ok [.internal_dialing_update lid true (some route_id) (some route_type) route_name (orgIdOf p2)])
              else (p1, .ok [.internal_dialing_update lid false none none none (orgIdOf p1)])
  | .LOCATION_OUTGOING_PERMISSION_DEFAULT =>
      match require_location_id api p with
      | (p1, .error e, _) => (p1, .error e)
      | (p1, .ok lid, _) =>
          match outgoing_profile_settings policy p1 with
          | .error e => (p1, .error e)
          | .ok settings => (p1, .ok [.location_permissions_out_configure lid settings (orgIdOf p1)])
  | .USER_LEGACY_INTERCOM_SECONDARY =>
      match resolve_person_id api p with
      | (p1, r, _) =>
          let number := p1.get "legacy_secondary_number"
          if pyTruthy r && pyTruthy number then
            (p1, .ok [.person_numbers_update (r.getD "") (number.getD "")])
          else (p1, .ok [])
  | .USER_LEGACY_FORWARD_PREFIX_53 =>
      match resolve_person_id api p with
      | (p1, r, _) =>
          if pyTruthy r then
            match legacy_target p1 with
            | some destination =>
                if destination ≠ "" then (p1, .ok [.person_forwarding_configure (r.getD "") destination])
                else (p1, .ok [])
            | none => (p1, .ok [])
          else (p1, .ok [])
  | .USER_OUTGOING_PERMISSION_OVERRIDE =>
      match resolve_person_id api p with
      | (p1, r, _) =>
          if pyTruthy r then
            match outgoing_profile_settings policy p1 with
            | .error e => (p1, .error e)
            | .ok settings => (p1, .ok [.person_permissions_out_configure (r.getD "") settings])
          else (p1, .ok [])
  | .WORKSPACE_LEGACY_INTERCOM_SECONDARY =>
      match resolve_workspace_id api p with
      | (p1, r, _) =>
          let number := p1.get "legacy_secondary_number"
          if pyTruthy r && pyTruthy number then
            (p1, .ok [.workspace_numbers_update (r.getD "") (number.getD "")])
          else (p1, .ok [])
  | .WORKSPACE_LEGACY_FORWARD_PREFIX_53 =>
      match resolve_workspace_id api p with
      | (p1, r, _) =>
          if pyTruthy r then
            match legacy_target p1 with
            | some destination =>
                if destination ≠ "" then (p1, .ok [.workspace_forwarding_configure (r.getD "") destination])
                else (p1, .ok [])
            | none => (p1, .ok [])
          else (p1, .ok [])
  | .WORKSPACE_OUTGOING_PERMISSION_OVERRIDE =>
      match resolve_workspace_id api p with
      | (p1, r, _) =>
          if pyTruthy r then
            match outgoing_profile_settings policy p1 with
            | .error e => (p1, .error e)
            | .ok settings => (p1, .ok [.workspace_permissions_out_configure (r.getD "") settings])
          else (p1, .ok [])

/-- One entry of `action_state.json`'s `items` map. -/
structure ActionStateItem where
  stage : Stage
  entity_key : String
  status : String
  last_executed_at : String
  error : Option String
deriving DecidableEq, Repr

/-- The `items` map of `action_state.json`, keyed by stringified action index. -/
abbrev ActionState := List (String × ActionStateItem)

/-- The dict returned by `run_single_action` (its `action` entry reduced to the
fields the engine itself produced: entity key, stage and mutated payload), plus
the mutating SDK calls the single apply attempt issued. -/
structure RunResult where
  entity_key : String
  stage : Stage
  payload : Payload
  before : Val
  after : Val
  changed : Bool
  error : Option String
  apply_calls : List SdkCall
deriving DecidableEq, Repr

/-- `V21Runner.run_single_action`.  `file_state` is the parsed content of
`action_state.json` (`none` when the file does not exist) and the first
component of the result is that file's content after the call; `now` stands for
`datetime.now(timezone.utc).isoformat()`.  An out-of-range `action_id` raises
`ValueError` before the state file is read or written; an exception in the
"before" snapshot propagates without a state write; exceptions during the
apply (including the "after" snapshot read) are caught and recorded. -/
def run_single_action (api : Api) (policy : Policy)
    (locations : List LocationRecord) (users : List UserRecord) (workspaces : List WorkspaceRecord)
    (file_state : Option ActionState) (now : String) (action_id : Int) (apply : Bool)
    : Option ActionState × Except String RunResult :=
  let plan_rows := build_plan locations users workspaces policy
  if action_id < 0 then
    (file_state, .error ("action_id out of range: " ++ toString action_id))
  else
    match plan_rows.get? action_id.toNat with
    | none => (file_state, .error ("action_id out of range: " ++ toString action_id))
    | some action =>
        let action_state := file_state.getD []
        match read_current_state api action.stage action.payload with
        | (_, .error e) => (file_state, .error e)
        | (p1, .ok before) =>
            let step : Payload × Val × Option String × List SdkCall :=
              if apply then
                match apply_action api policy action.stage p1 with
                | (p2, .error e) => (p2, before, some e, [])
                | (p2, .ok calls) =>
                    match read_current_state api action.stage p2 with
                    | (p3, .error e) => (p3, before, some e, calls)
                    | (p3, .ok after) => (p3, after, none, calls)
              else (p1, before, none, [])
            match step with
            | (pf, after, error, calls) =>
                let status := if error.isSome then "failed" else if apply then "applied" else "previewed"
                let new_state := assocSet action_state (toString action_id)
                  ⟨action.stage, action.entity_key, status, now, error⟩
                (some new_state,
                 .ok ⟨action.entity_key, action.stage, pf, before, after, decide (before ≠ after), error, calls⟩)

end V21

namespace Launcher

/-- An HTTP error raised by an SDK call, as inspected by the retry helper:
its `response.status_code` and the optional `Retry-After` response header. -/
structure ApiError where
  status_code : Nat
  retry_after : Option String
deriving DecidableEq, Repr

/-- Modelled from the spec: `_retry_after_wait_seconds` of
`Space_OdT/v21/transformacion/launcher_csv_dependencias.py` (the module is
absent from the sources; only its unit test is present).  Parses a numeric
`Retry-After` header into a wait duration in seconds. -/
def retry_after_wait_seconds (raw : String) : Option Nat :=
  if raw.data.length ≠ 0 ∧ raw.data.all Char.isDigit
  then some (raw.data.foldl (fun n c => 10 * n + (c.toNat - 48)) 0)
  else none

/-- Modelled from the spec: `_invoke_with_retry_after` of
`launcher_csv_dependencias.py` (absent from the sources; behavior from spec
sections 4.2 / 7 / 8 and `test_space_odt_v21_launcher_csv_dependencias.py`).
`handler n` is the n-th invocation of the wrapped handler; the second
component lists the sleeps performed, in seconds.  A 429 carrying a parseable
`Retry-After` header is retried exactly once after sleeping that long and the
second attempt's result is returned; any other failure propagates with no
sleep and no retry. -/
def invoke_with_retry_after {α : Type} (handler : Nat → Except ApiError α) :
    Except ApiError α × List Nat :=
  match handler 0 with
  | .ok v => (.ok v, [])
  | .error e =>
      if e.status_code = 429 then
        match e.retry_after with
        | some raw =>
            match retry_after_wait_seconds raw with
            | some seconds => (handler 1, [seconds])
            | none => (.error e, [])
        | none => (.error e, [])
      else (.error e, [])

end Launcher

namespace ExportRunner

/-- One entry of `MODULE_SPECS` (the fields `run_exports` reads). -/
structure ModuleSpec where
  name : String
  list_path : String
deriving DecidableEq, Repr

/-- One entry of `V1_ARTIFACT_SPECS` (the fields `run_exports` reads). -/
structure ArtifactSpec where
  module : String
  method_path : String
deriving DecidableEq, Repr

/-- The result of a successful `run_spec` / `run_artifact` fetch. -/
structure ModuleResult where
  module : String
  method : String
  rows : List Val
  count : Nat
deriving DecidableEq, Repr

/-- `Space_OdT.status.StatusRecord`. -/
structure StatusRecord where
  module : String
  method : String
  result : String
  http_status : Option Nat
  error : String
  count : Nat
  elapsed_ms : Nat
deriving DecidableEq, Repr

/-- A classified exception, i.e. the `(kind, http_status, message)` triple that
`classify_exception` produces from the raised exception. -/
structure ExcInfo where
  kind : String
  http_status : Option Nat
  message : String
deriving DecidableEq, Repr

/-- One export artifact written by `_write_module_exports`. -/
inductive ExportFile where
  | json (module : String)
  | csv (module : String)
deriving DecidableEq, Repr

/-- The accumulating run state of `run_exports`: files written so far, the
cache-entity dict, the per-module count dict and the recorder's rows. -/
structure RunAcc where
  files : List (ExportFile × List Val)
  cache_entities : List (String × List Val)
  module_counts : List (String × Nat)
  status_rows : List StatusRecord
deriving DecidableEq, Repr

/-- One iteration of the `MODULE_SPECS` loop of `run_exports`.  `run_spec_fn`
is the timed fetch: on success it yields the module result and the elapsed
milliseconds, on failure the classified exception. -/
def stepModule (run_spec_fn : ModuleSpec → Except ExcInfo (ModuleResult × Nat))
    (enabled_modules : List String) (acc : RunAcc) (spec : ModuleSpec) : RunAcc :=
  if spec.name ∈ enabled_modules then
    match run_spec_fn spec with
    | .ok (result, elapsed) =>
        { files := acc.files ++ [(ExportFile.json result.module, result.rows), (ExportFile.csv result.module, result.rows)]
          cache_entities := assocSet acc.cache_entities result.module result.rows
          module_counts := assocSet acc.module_counts result.module result.count
          status_rows := acc.status_rows ++ [⟨spec.name, spec.list_path, "ok", none, "", result.count, elapsed⟩] }
    | .error exc =>
        { files := acc.files ++ [(ExportFile.json spec.name, []), (ExportFile.csv spec.name, [])]
          cache_entities := assocSet acc.cache_entities spec.name []
          module_counts := assocSet acc.module_counts spec.name 0
          status_rows := acc.status_rows ++ [⟨spec.name, spec.list_path, exc.kind, exc.http_status, exc.message, 0, 0⟩] }
  else acc

/-- One iteration of the `V1_ARTIFACT_SPECS` loop of `run_exports`; the fetch
additionally sees the cache entities accumulated so far. -/
def stepArtifact (run_artifact_fn : ArtifactSpec → List (String × List Val) → Except ExcInfo (ModuleResult × Nat))
    (enabled_modules : List String) (acc : RunAcc) (spec : ArtifactSpec) : RunAcc :=
  if spec.module ∈ enabled_modules then
    match run_artifact_fn spec acc.cache_entities with
    | .ok (result, elapsed) =>
        { files := acc.files ++ [(ExportFile.json result.module, result.rows), (ExportFile.csv result.module, result.rows)]
          cache_entities := assocSet acc.cache_entities result.module result.rows
          module_counts := assocSet acc.module_counts result.module result.count
          status_rows := acc.status_rows ++ [⟨result.module, result.method, "ok", none, "", result.count, elapsed⟩] }
    | .error exc =>
        { files := acc.files ++ [(ExportFile.json spec.module, []), (ExportFile.csv spec.module, [])]
          cache_entities := assocSet acc.cache_entities spec.module []
          module_counts := assocSet acc.module_counts spec.module 0
          status_rows := acc.status_rows ++ [⟨spec.module, spec.method_path, exc.kind, exc.http_status, exc.message, 0, 0⟩] }
  else acc

/-- What `Space_OdT.export_runner.run_exports` leaves behind: the artifacts,
dicts and status rows, plus the summary dict fields it returns. -/
structure RunOutput where
  files : List (ExportFile × List Val)
  cache_entities : List (String × List Val)
  module_counts : List (String × Nat)
  status_rows : List StatusRecord
  status_count : Nat
  cache_written : Bool
  report_written : Bool
deriving DecidableEq, Repr

/-- `Space_OdT.export_runner.run_exports`: both module loops, then the status
artifacts, the optional cache file and the optional HTML report. -/
def run_exports (module_specs : List ModuleSpec) (artifact_specs : List ArtifactSpec)
    (run_spec_fn : ModuleSpec → Except ExcInfo (ModuleResult × Nat))
    (run_artifact_fn : ArtifactSpec → List (String × List Val) → Except ExcInfo (ModuleResult × Nat))
    (enabled_modules : List String) (write_cache write_report : Bool) : RunOutput :=
  let acc1 := module_specs.foldl (stepModule run_spec_fn enabled_modules) ⟨[], [], [], []⟩
  let acc2 := artifact_specs.foldl (stepArtifact run_artifact_fn enabled_modules) acc1
  ⟨acc2.files, acc2.cache_entities, acc2.module_counts, acc2.status_rows,
   acc2.status_rows.length, write_cache, write_report⟩

end ExportRunner

namespace Cli

/-- `SpaceOdT.cli.FIXED_MODULES`. -/
def FIXED_MODULES : List String :=
  ["organizations", "locations", "people", "groups", "group_members"]

/-- `SpaceOdT.cli.DEFAULT_OUT_DIR`. -/
def DEFAULT_OUT_DIR : String := ".artifacts"

/-- `SpaceOdT.cli.DEFAULT_REPORT_NAME`. -/
def DEFAULT_REPORT_NAME : String := "report.json"

/-- The message of `MissingTokenError`. -/
def MISSING_TOKEN_MESSAGE : String :=
  "Missing Webex token. Set WEBEX_ACCESS_TOKEN (or WEBEX_TOKEN) before running this command."

/-- The process environment (`os.environ` or an injected mapping). -/
abbrev Env := List (String × String)

/-- `SpaceOdT.cli.resolve_token`: `WEBEX_ACCESS_TOKEN or WEBEX_TOKEN`, raising
`MissingTokenError` when neither is set to something truthy. -/
def resolve_token (env : Env) : Except String String :=
  let token := pyOr (assocGet env "WEBEX_ACCESS_TOKEN") (assocGet env "WEBEX_TOKEN")
  if pyTruthy token then .ok (token.getD "") else .error MISSING_TOKEN_MESSAGE

/-- `SpaceOdT.cli.module_list`. -/
def module_list (skip_group_members : Bool) : List String :=
  if ¬skip_group_members then FIXED_MODULES
  else FIXED_MODULES.filter (fun module => module ≠ "group_members")

/-- `SpaceOdT.cli.ModuleExportResult`. -/
structure ModuleExportResult where
  module : String
  result : String
  count : Nat
  file_paths : List String
deriving DecidableEq, Repr

/-- A JSON file written to disk. -/
structure FileWrite where
  path : String
  content : Val
deriving DecidableEq, Repr

/-- `SpaceOdT.cli.export_module`: writes `<out_dir>/<module>.json` containing
`{"module": ..., "items": []}` and reports an `ok` result counting the items. -/
def export_module (module : String) (out_dir : String) : ModuleExportResult × FileWrite :=
  let output_path := out_dir ++ "/" ++ module ++ ".json"
  let payload := obj2 "module" (Val.str module) "items" (Val.arr .nil)
  (⟨module, "ok", 0, [output_path]⟩, ⟨output_path, payload⟩)

/-- The consolidated report payload written to `report.json`. -/
structure Report where
  modules : List ModuleExportResult
  total_modules : Nat
  total_items : Nat
deriving DecidableEq, Repr

/-- `SpaceOdT.cli.run_exports`: token check, one export per module of the
(possibly filtered) fixed list, then the optional consolidated report. -/
def run_exports (out_dir : String) (no_report skip_group_members : Bool) (env : Env)
    : Except String (List ModuleExportResult × List FileWrite × Option Report) :=
  match resolve_token env with
  | .error e => .error e
  | .ok _token =>
      let pairs := (module_list skip_group_members).map (fun module => export_module module out_dir)
      let results := pairs.map (·.1)
      let files := pairs.map (·.2)
      if ¬no_report then
        .ok (results, files, some ⟨results, results.length, (results.map (·.count)).sum⟩)
      else .ok (results, files, none)

/-- `SpaceOdT.cli.format_summary_line`. -/
def format_summary_line (result : ModuleExportResult) : String :=
  result.module ++ " -> " ++ result.result ++ " -> " ++ toString result.count ++ " -> "
    ++ String.intercalate ", " result.file_paths

/-- The `export-all` options of `build_parser`. -/
structure CliArgs where
  out_dir : String
  no_report : Bool
  skip_group_members : Bool
deriving DecidableEq, Repr

/-- The argparse flags of the `export-all` subcommand. -/
def parse_export_all_flags : List String → CliArgs → Option CliArgs
  | [], acc => some acc
  | "--no-report" :: rest, acc => parse_export_all_flags rest { acc with no_report := true }
  | "--skip-group-members" :: rest, acc => parse_export_all_flags rest { acc with skip_group_members := true }
  | "--out-dir" :: value :: rest, acc => parse_export_all_flags rest { acc with out_dir := value }
  | _, _ => none

/-- `SpaceOdT.cli.main`: exit code and printed lines.  `none` covers only the
argparse usage-error paths (argparse exits by itself there). -/
def main (argv : List String) (env : Env) : Option (Nat × List String) :=
  match argv with
  | "export-all" :: rest =>
      match parse_export_all_flags rest ⟨DEFAULT_OUT_DIR, false, false⟩ with
      | none => none
      | some args =>
          match run_exports args.out_dir args.no_report args.skip_group_members env with
          | .error e => some (2, ["Error: " ++ e])
          | .ok (results, _, _) => some (0, results.map format_summary_line)
  | _ => none

end Cli

namespace Config

/-- `SpaceOdT.config.CONFIG_CONTRACT_VERSION`. -/
def CONFIG_CONTRACT_VERSION : Nat := 1

/-- `SpaceOdT.config.ENABLED_MODULES`. -/
def ENABLED_MODULES : List String := ["spaces", "messages", "memberships", "attachments"]

/-- `SpaceOdT.config.FeatureToggles`. -/
structure FeatureToggles where
  group_members : Bool := true
  report_enabled : Bool := true
  cache_enabled : Bool := true
deriving DecidableEq, Repr

/-- `FeatureToggles.as_dict`. -/
def FeatureToggles.as_dict (t : FeatureToggles) : Val :=
  Val.obj (.cons "group_members" (.boolean t.group_members)
    (.cons "report_enabled" (.boolean t.report_enabled)
      (.cons "cache_enabled" (.boolean t.cache_enabled) .nil)))

/-- `SpaceOdT.config.SchemaVersions`. -/
structure SchemaVersions where
  «export» : Nat := 1
  cache : Nat := 1
deriving DecidableEq, Repr

/-- `SchemaVersions.as_dict`. -/
def SchemaVersions.as_dict (v : SchemaVersions) : Val :=
  obj2 "export" (.num v.«export») "cache" (.num v.cache)

/-- `SpaceOdT.config.SpaceOdTConfig`. -/
structure SpaceOdTConfig where
  contract_version : Nat := CONFIG_CONTRACT_VERSION
  enabled_modules : List String := ENABLED_MODULES
  toggles : FeatureToggles := {}
  schema_versions : SchemaVersions := {}
deriving DecidableEq, Repr

/-- `SpaceOdTConfig.as_dict`: the stable serialized contract shape. -/
def SpaceOdTConfig.as_dict (c : SpaceOdTConfig) : Val :=
  Val.obj (.cons "contract_version" (.num c.contract_version)
    (.cons "enabled_modules" (.arr (ValArr.ofList (c.enabled_modules.map Val.str)))
      (.cons "toggles" c.toggles.as_dict
        (.cons "schema_versions" c.schema_versions.as_dict .nil))))

/-- `SpaceOdT.config.DEFAULT_CONFIG`. -/
def DEFAULT_CONFIG : SpaceOdTConfig := {}

end Config

namespace Fixtures

/-- A remote API on which every location resolves to `"L1"` and everything
else is empty: used to exercise the engine on concrete inputs. -/
def apiResolves : V21.Api where
  locationsByName := fun _ => some "L1"
  routeGroupList := fun _ => []
  peopleListByEmail := fun _ => none
  workspacesList := fun _ => []
  locationsCreate := fun _ => "LNEW"
  locationDetails := fun _ => Val.null
  telephonyLocationDetails := fun _ => Val.null
  pstnList := fun _ => []
  locationPhoneNumbers := fun _ => []
  internalDialingRead := fun _ => Val.null
  locationPermissionsOutRead := fun _ => Val.null
  personNumbersRead := fun _ => Val.null
  personForwardingRead := fun _ => Val.null
  personPermissionsOutRead := fun _ => Val.null
  workspaceNumbersRead := fun _ => Val.null
  workspaceForwardingRead := fun _ => Val.null
  workspacePermissionsOutRead := fun _ => Val.null

/-- A remote API on which nothing resolves: absent entities everywhere. -/
def apiAbsent : V21.Api where
  locationsByName := fun _ => none
  routeGroupList := fun _ => []
  peopleListByEmail := fun _ => none
  workspacesList := fun _ => []
  locationsCreate := fun _ => "LNEW"
  locationDetails := fun _ => Val.null
  telephonyLocationDetails := fun _ => Val.null
  pstnList := fun _ => []
  locationPhoneNumbers := fun _ => []
  internalDialingRead := fun _ => Val.null
  locationPermissionsOutRead := fun _ => Val.null
  personNumbersRead := fun _ => Val.null
  personForwardingRead := fun _ => Val.null
  personPermissionsOutRead := fun _ => Val.null
  workspaceNumbersRead := fun _ => Val.null
  workspaceForwardingRead := fun _ => Val.null
  workspacePermissionsOutRead := fun _ => Val.null

/-- An empty static policy. -/
def polFix : V21.Policy := ⟨none, []⟩

/-- A location row named `Sede X` without numbers and without IDs. -/
def locFix : V21.LocationRecord := ⟨none, "Sede X", none, [("location_name", "Sede X")]⟩

/-- A user row without an outgoing profile. -/
def userFix : V21.UserRecord := ⟨none, "u@example.com", none, [("user_email", "u@example.com")]⟩

/-- A workspace row with an outgoing profile override. -/
def wsFix : V21.WorkspaceRecord := ⟨none, "WS 1", some "profile_9", [("workspace_name", "WS 1")]⟩

/-- A handler failing once with 429 / `Retry-After: "2"`, then succeeding. -/
def handlerRetryFix : Nat → Except Launcher.ApiError Nat :=
  fun n => if n = 0 then .error ⟨429, some "2"⟩ else .ok 7

/-- A handler always failing with 429 and no `Retry-After` header. -/
def handlerNoHeaderFix : Nat → Except Launcher.ApiError Nat :=
  fun _ => .error ⟨429, none⟩

/-- A module spec whose fetch always fails. -/
def specBad : ExportRunner.ModuleSpec := ⟨"people", "people.list"⟩

/-- A module spec whose fetch succeeds. -/
def specGood : ExportRunner.ModuleSpec := ⟨"groups", "groups.list"⟩

/-- A fetch function failing on `people` and returning one row on `groups`. -/
def runSpecFix : ExportRunner.ModuleSpec → Except ExportRunner.ExcInfo (ExportRunner.ModuleResult × Nat) :=
  fun spec =>
    if spec.name = "people" then .error ⟨"error", some 500, "boom"⟩
    else .ok (⟨spec.name, spec.list_path, [Val.str "row"], 1⟩, 3)

/-- An artifact fetch that always succeeds with no rows. -/
def runArtifactFix : ExportRunner.ArtifactSpec → List (String × List Val) →
    Except ExportRunner.ExcInfo (ExportRunner.ModuleResult × Nat) :=
  fun spec _ => .ok (⟨spec.module, spec.method_path, [], 0⟩, 1)

end Fixtures

theorem Payload.get_set_self (p : Payload) (k v : String) :
    Payload.get (Payload.set p k v) k = some v := by
  induction p with
  | nil => simp [Payload.set, Payload.get]
  | cons kv rest ih =>
      obtain ⟨k1, v1⟩ := kv
      by_cases h : k1 = k
      · simp [Payload.set, h, Payload.get]
      · simpa [Payload.set, h, Payload.get] using ih

theorem assocGet_assocSet_self {α : Type} (m : List (String × α)) (k : String) (v : α) :
    assocGet (assocSet m k v) k = some v := by
  induction m with
  | nil => simp [assocSet, assocGet]
  | cons kv rest ih =>
      obtain ⟨k1, v1⟩ := kv
      by_cases h : k1 = k
      · simp [assocSet, h, assocGet]
      · simpa [assocSet, h, assocGet] using ih

theorem assocGet_cons {α : Type} (a : String) (b : α) (t : List (String × α)) (k : String) :
    assocGet ((a, b) :: t) k = if a = k then some b else assocGet t k := by
  by_cases h : a = k <;> simp [assocGet, List.find?_cons, h]

theorem assocGet_assocSet {α : Type} (m : List (String × α)) (k k' : String) (v : α) :
    assocGet (assocSet m k v) k' = if k' = k then some v else assocGet m k' := by
  induction m with
  | nil =>
      by_cases h : k = k'
      · simp [assocSet, assocGet_cons, assocGet, h]
      · simp [assocSet, assocGet_cons, assocGet, h, Ne.symm h]
  | cons kv rest ih =>
      obtain ⟨k1, v1⟩ := kv
      by_cases hk : k1 = k
      · subst hk
        by_cases h : k1 = k'
        · simp [assocSet, assocGet_cons, h]
        · simp [assocSet, assocGet_cons, h, Ne.symm h]
      · by_cases h1 : k1 = k'
        · subst h1
          simp [assocSet, assocGet_cons, hk, Ne.symm hk]
        · simp [assocSet, assocGet_cons, hk, h1, ih]

theorem assocGet_assocSet_isSome {α : Type} (m : List (String × α)) (k k' : String) (v : α)
    (h : (assocGet m k').isSome = true) : (assocGet (assocSet m k v) k').isSome = true := by
  rw [assocGet_assocSet]
  by_cases hk : k' = k
  · simp [hk]
  · simpa [hk] using h

theorem string_append_left_cancel (a b c : String) (h : a ++ b = a ++ c) : b = c := by
  have hd := congrArg String.data h
  simp only [String.data_append] at hd
  exact String.ext (List.append_cancel_left hd)

theorem string_append_right_cancel (a b c : String) (h : a ++ c = b ++ c) : a = b := by
  have hd := congrArg String.data h
  simp only [String.data_append] at hd
  exact String.ext (List.append_cancel_right hd)

/-- C9: the default configuration contract holds: `ENABLED_MODULES` is exactly
`("spaces", "messages", "memberships", "attachments")` and
`DEFAULT_CONFIG.as_dict()` has the stable documented shape. -/
theorem C9_default_config_contract :
    Config.ENABLED_MODULES = ["spaces", "messages", "memberships", "attachments"]
    ∧ Config.DEFAULT_CONFIG.as_dict
        = Val.obj (.cons "contract_version" (.num 1)
            (.cons "enabled_modules"
              (.arr (.cons (.str "spaces") (.cons (.str "messages")
                (.cons (.str "memberships") (.cons (.str "attachments") .nil)))))
              (.cons "toggles"
                (Val.obj (.cons "group_members" (.boolean true)
                  (.cons "report_enabled" (.boolean true)
                    (.cons "cache_enabled" (.boolean true) .nil))))
                (.cons "schema_versions"
                  (Val.obj (.cons "export" (.num 1) (.cons "cache" (.num 1) .nil))) .nil)))) := by
  constructor <;> rfl

/-- C5: a handler whose first call raises a 429 carrying `Retry-After: "2"` is
retried exactly once after a 2-second sleep and the second attempt's result is
returned; a 429 with no `Retry-After` header propagates with no sleep and no
retry. -/
theorem C5_retry_semantics {α : Type} (handler : Nat → Except Launcher.ApiError α)
    (e : Launcher.ApiError) (h0 : handler 0 = .error e) (h429 : e.status_code = 429) :
    (e.retry_after = some "2" →
        Launcher.invoke_with_retry_after handler = (handler 1, [2]))
    ∧ (e.retry_after = none →
        Launcher.invoke_with_retry_after handler = (.error e, [])) := by
  constructor
  · intro hra
    simp [Launcher.invoke_with_retry_after, h0, h429, hra, Launcher.retry_after_wait_seconds]
  · intro hra
    simp [Launcher.invoke_with_retry_after, h0, h429, hra]

/-- Witness for C5 at the concrete handlers of the unit test. -/
theorem C5_witness :
    Launcher.invoke_with_retry_after Fixtures.handlerRetryFix = (.ok 7, [2])
    ∧ Launcher.invoke_with_retry_after Fixtures.handlerNoHeaderFix
        = (.error ⟨429, none⟩, []) := by
  constructor
  · have h := (C5_retry_semantics Fixtures.handlerRetryFix ⟨429, some "2"⟩ rfl rfl).1 rfl
    simpa using h
  · exact (C5_retry_semantics Fixtures.handlerNoHeaderFix ⟨429, none⟩ rfl rfl).2 rfl

/-- C7: `main(["export-all", ...])` exits 0 on success; with no truthy
`WEBEX_ACCESS_TOKEN` / `WEBEX_TOKEN` it exits 2 and prints a message
containing "Missing Webex token". -/
theorem C7_cli_exit_codes (rest : List String) (args : Cli.CliArgs) (env : Cli.Env)
    (hparse : Cli.parse_export_all_flags rest ⟨Cli.DEFAULT_OUT_DIR, false, false⟩ = some args) :
    (pyTruthy (pyOr (assocGet env "WEBEX_ACCESS_TOKEN") (assocGet env "WEBEX_TOKEN")) = false →
        Cli.main ("export-all" :: rest) env = some (2, ["Error: " ++ Cli.MISSING_TOKEN_MESSAGE])
          ∧ "Missing Webex token".data <:+: ("Error: " ++ Cli.MISSING_TOKEN_MESSAGE).data)
    ∧ (pyTruthy (pyOr (assocGet env "WEBEX_ACCESS_TOKEN") (assocGet env "WEBEX_TOKEN")) = true →
        (Cli.main ("export-all" :: rest) env).map Prod.fst = some 0) := by
  constructor
  · intro h
    constructor
    · simp [Cli.main, hparse, Cli.run_exports, Cli.resolve_token, h]
    · decide
  · intro h
    by_cases hr : args.no_report
    · simp [Cli.main, hparse, Cli.run_exports, Cli.resolve_token, h, hr]
    · simp [Cli.main, hparse, Cli.run_exports, Cli.resolve_token, h, hr]

/-- Witness for C7: empty environment exits 2 with the message; an environment
holding `WEBEX_TOKEN` exits 0. -/
theorem C7_witness :
    Cli.main ["export-all"] [] = some (2, ["Error: " ++ Cli.MISSING_TOKEN_MESSAGE])
    ∧ (Cli.main ["export-all"] [("WEBEX_TOKEN", "tkn")]).map Prod.fst = some 0 := by
  refine ⟨((C7_cli_exit_codes [] ⟨Cli.DEFAULT_OUT_DIR, false, false⟩ [] rfl).1 (by decide)).1,
          (C7_cli_exit_codes [] ⟨Cli.DEFAULT_OUT_DIR, false, false⟩ [("WEBEX_TOKEN", "tkn")] rfl).2 (by decide)⟩

theorem Payload.get_cons (a b : String) (t : Payload) (k : String) :
    Payload.get ((a, b) :: t) k = if a = k then some b else Payload.get t k := by
  by_cases h : a = k <;> simp [Payload.get, List.find?_cons, h]

theorem Payload.get_set (p : Payload) (k k' v : String) :
    Payload.get (Payload.set p k v) k' = if k' = k then some v else Payload.get p k' := by
  induction p with
  | nil =>
      by_cases h : k = k'
      · simp [Payload.set, Payload.get_cons, Payload.get, h]
      · simp [Payload.set, Payload.get_cons, Payload.get, h, Ne.symm h]
  | cons kv rest ih =>
      obtain ⟨k1, v1⟩ := kv
      by_cases hk : k1 = k
      · subst hk
        by_cases h : k1 = k'
        · simp [Payload.set, Payload.get_cons, h]
        · simp [Payload.set, Payload.get_cons, h, Ne.symm h]
      · by_cases h1 : k1 = k'
        · subst h1
          simp [Payload.set, Payload.get_cons, hk, Ne.symm hk]
        · simp [Payload.set, Payload.get_cons, hk, h1, ih]

theorem resolve_location_id_get_ne (api : V21.Api) (p : Payload) (k : String)
    (hk : k ≠ "location_id") :
    Payload.get (V21.resolve_location_id api p).1 k = Payload.get p k := by
  unfold V21.resolve_location_id
  split
  · rfl
  · split
    · rfl
    · split
      · rfl
      · split
        · simp [Payload.get_set, hk]
        · rfl

theorem require_location_id_get_ne (api : V21.Api) (p : Payload) (k : String)
    (hk : k ≠ "location_id") :
    Payload.get (V21.require_location_id api p).1 k = Payload.get p k := by
  have hres := resolve_location_id_get_ne api p k hk
  unfold V21.require_location_id
  rcases h : V21.resolve_location_id api p with ⟨p1, r, n⟩
  rw [h] at hres
  simp only at hres
  by_cases ht : pyTruthy r = true <;> simp [ht, hres]

/-- C1 counterexample: for a location whose payload supplies no numbers, the
planner still emits the `LOCATION_NUMBERS_ADD_DISABLED` stage, contradicting
the claim that the stage is emitted only if the payload supplies numbers. -/
theorem C1_counterexample :
    Payload.get Fixtures.locFix.payload "location_numbers" = none
    ∧ V21.Stage.LOCATION_NUMBERS_ADD_DISABLED ∈
        (V21.build_plan [Fixtures.locFix] [] [] Fixtures.polFix).map (·.stage) := by
  decide

/-- C1 (amended): `_build_plan` emits the full fixed stage sequence for every
location unconditionally — including the numbers-add stage — while
`_apply_action` issues no add call for it when the payload supplies no
numbers; the outgoing-permission-override action is emitted for a
user/workspace exactly when its record specifies an outgoing profile. -/
theorem C1_amended_planner (policy : V21.Policy) (loc : V21.LocationRecord)
    (user : V21.UserRecord) (ws : V21.WorkspaceRecord) (api : V21.Api) (p : Payload)
    (hnums : V21.split_pipe (Payload.get p "location_numbers") = []) :
    ((V21.planLocation policy loc).map (·.stage) =
        [V21.Stage.LOCATION_CREATE_AND_ACTIVATE, V21.Stage.LOCATION_ROUTE_GROUP_RESOLVE,
         V21.Stage.LOCATION_PSTN_CONFIGURE, V21.Stage.LOCATION_NUMBERS_ADD_DISABLED,
         V21.Stage.LOCATION_MAIN_DDI_ASSIGN, V21.Stage.LOCATION_INTERNAL_CALLING_CONFIG,
         V21.Stage.LOCATION_OUTGOING_PERMISSION_DEFAULT])
    ∧ ((V21.planUser user).map (·.stage) =
        if pyTruthy user.outgoing_profile then
          [V21.Stage.USER_LEGACY_INTERCOM_SECONDARY, V21.Stage.USER_LEGACY_FORWARD_PREFIX_53,
           V21.Stage.USER_OUTGOING_PERMISSION_OVERRIDE]
        else [V21.Stage.USER_LEGACY_INTERCOM_SECONDARY, V21.Stage.USER_LEGACY_FORWARD_PREFIX_53])
    ∧ ((V21.planWorkspace ws).map (·.stage) =
        if pyTruthy ws.outgoing_profile then
          [V21.Stage.WORKSPACE_LEGACY_INTERCOM_SECONDARY, V21.Stage.WORKSPACE_LEGACY_FORWARD_PREFIX_53,
           V21.Stage.WORKSPACE_OUTGOING_PERMISSION_OVERRIDE]
        else [V21.Stage.WORKSPACE_LEGACY_INTERCOM_SECONDARY, V21.Stage.WORKSPACE_LEGACY_FORWARD_PREFIX_53])
    ∧ (∀ p1 lid n1, V21.require_location_id api p = (p1, Except.ok lid, n1) →
        V21.apply_action api policy V21.Stage.LOCATION_NUMBERS_ADD_DISABLED p = (p1, Except.ok [])) := by
  refine ⟨by simp [V21.planLocation], ?_, ?_, ?_⟩
  · by_cases h : pyTruthy user.outgoing_profile <;> simp [V21.planUser, h]
  · by_cases h : pyTruthy ws.outgoing_profile <;> simp [V21.planWorkspace, h]
  · intro p1 lid n1 hreq
    have hpres : Payload.get p1 "location_numbers" = Payload.get p "location_numbers" := by
      have := require_location_id_get_ne api p "location_numbers" (by decide)
      rwa [hreq] at this
    unfold V21.apply_action
    rw [hreq]
    simp [hpres, hnums]

/-- Witness for C1 (amended) at concrete inputs. -/
theorem C1_amended_witness :
    V21.split_pipe (Payload.get [("location_id", "L1")] "location_numbers") = []
    ∧ ((V21.planUser Fixtures.userFix).map (·.stage) =
        [V21.Stage.USER_LEGACY_INTERCOM_SECONDARY, V21.Stage.USER_LEGACY_FORWARD_PREFIX_53])
    ∧ ((V21.planWorkspace Fixtures.wsFix).map (·.stage) =
        [V21.Stage.WORKSPACE_LEGACY_INTERCOM_SECONDARY, V21.Stage.WORKSPACE_LEGACY_FORWARD_PREFIX_53,
         V21.Stage.WORKSPACE_OUTGOING_PERMISSION_OVERRIDE])
    ∧ V21.apply_action Fixtures.apiResolves Fixtures.polFix V21.Stage.LOCATION_NUMBERS_ADD_DISABLED
        [("location_id", "L1")] = ([("location_id", "L1")], Except.ok []) := by
  have h := C1_amended_planner Fixtures.polFix Fixtures.locFix Fixtures.userFix Fixtures.wsFix
      Fixtures.apiResolves [("location_id", "L1")] rfl
  refine ⟨rfl, by simpa using h.2.1, by simpa using h.2.2.1,
          h.2.2.2 [("location_id", "L1")] "L1" 0 rfl⟩

/-- C2: entity-ID resolution is memoized into the payload: a payload already
carrying a truthy resolved ID is returned as-is with zero remote lookups for
each `_resolve_*` helper, and a successful name-based lookup writes the
resolved ID back into the payload, after which a later call performs no
lookup. -/
theorem C2_resolution_memoized (api : V21.Api) (p : Payload) :
    (∀ s, Payload.get p "location_id" = some s → s ≠ "" →
        V21.resolve_location_id api p = (p, some s, 0))
    ∧ (∀ s, Payload.get p "route_group_id" = some s → s ≠ "" →
        V21.resolve_route_group_id api p = (p, some s, 0))
    ∧ (∀ s, Payload.get p "user_id" = some s → s ≠ "" →
        V21.resolve_person_id api p = (p, some s, 0))
    ∧ (∀ s, Payload.get p "workspace_id" = some s → s ≠ "" →
        V21.resolve_workspace_id api p = (p, some s, 0))
    ∧ (∀ name lid, pyTruthy (Payload.get p "location_id") = false →
        Payload.get p "location_name" = some name → name ≠ "" →
        api.locationsByName name = some lid →
        V21.resolve_location_id api p = (Payload.set p "location_id" lid, some lid, 1)
          ∧ Payload.get (Payload.set p "location_id" lid) "location_id" = some lid
          ∧ (lid ≠ "" → V21.resolve_location_id api (Payload.set p "location_id" lid)
                = (Payload.set p "location_id" lid, some lid, 0)))
    ∧ (∀ rg_name rid, pyTruthy (Payload.get p "route_group_id") = false →
        Payload.get p "route_group_name" = some rg_name → rg_name ≠ "" →
        V21.findRouteGroup rg_name (api.routeGroupList rg_name) = some rid →
        V21.resolve_route_group_id api p = (Payload.set p "route_group_id" rid, some rid, 1)
          ∧ Payload.get (Payload.set p "route_group_id" rid) "route_group_id" = some rid
          ∧ (rid ≠ "" → V21.resolve_route_group_id api (Payload.set p "route_group_id" rid)
                = (Payload.set p "route_group_id" rid, some rid, 0)))
    ∧ (∀ email pid, pyTruthy (Payload.get p "user_id") = false →
        Payload.get p "user_email" = some email → email ≠ "" →
        api.peopleListByEmail email = some pid →
        V21.resolve_person_id api p = (Payload.set p "user_id" pid, some pid, 1)
          ∧ Payload.get (Payload.set p "user_id" pid) "user_id" = some pid)
    ∧ (∀ wname wid, pyTruthy (Payload.get p "workspace_id") = false →
        Payload.get p "workspace_name" = some wname → wname ≠ "" →
        V21.findWorkspace wname (api.workspacesList wname) = some wid →
        V21.resolve_workspace_id api p = (Payload.set p "workspace_id" wid, some wid, 1)
          ∧ Payload.get (Payload.set p "workspace_id" wid) "workspace_id" = some wid) := by
  refine ⟨?_, ?_, ?_, ?_, ?_, ?_, ?_, ?_⟩
  · intro s h h'
    simp [V21.resolve_location_id, h, pyTruthy, h']
  · intro s h h'
    simp [V21.resolve_route_group_id, h, pyTruthy, h']
  · intro s h h'
    simp [V21.resolve_person_id, h, pyTruthy, h']
  · intro s h h'
    simp [V21.resolve_workspace_id, h, pyTruthy, h']
  · intro name lid hfalse hname hname' hlook
    refine ⟨by simp [V21.resolve_location_id, hfalse, hname, hname', hlook],
            Payload.get_set_self p "location_id" lid, ?_⟩
    intro hlid
    simp [V21.resolve_location_id, Payload.get_set_self, pyTruthy, hlid]
  · intro rg_name rid hfalse hname hname' hlook
    refine ⟨by simp [V21.resolve_route_group_id, hfalse, hname, hname', hlook],
            Payload.get_set_self p "route_group_id" rid, ?_⟩
    intro hrid
    simp [V21.resolve_route_group_id, Payload.get_set_self, pyTruthy, hrid]
  · intro email pid hfalse hname hname' hlook
    exact ⟨by simp [V21.resolve_person_id, hfalse, hname, hname', hlook],
           Payload.get_set_self p "user_id" pid⟩
  · intro wname wid hfalse hname hname' hlook
    exact ⟨by simp [V21.resolve_workspace_id, hfalse, hname, hname', hlook],
           Payload.get_set_self p "workspace_id" wid⟩

/-- Witness for C2 at concrete payloads and the concrete API. -/
theorem C2_witness :
    V21.resolve_location_id Fixtures.apiResolves [("location_id", "L1")]
      = ([("location_id", "L1")], some "L1", 0)
    ∧ V21.resolve_route_group_id Fixtures.apiResolves [("route_group_id", "R1")]
      = ([("route_group_id", "R1")], some "R1", 0)
    ∧ V21.resolve_person_id Fixtures.apiResolves [("user_id", "P1")]
      = ([("user_id", "P1")], some "P1", 0)
    ∧ V21.resolve_workspace_id Fixtures.apiResolves [("workspace_id", "W1")]
      = ([("workspace_id", "W1")], some "W1", 0)
    ∧ V21.resolve_location_id Fixtures.apiResolves [("location_name", "Sede X")]
      = ([("location_name", "Sede X"), ("location_id", "L1")], some "L1", 1) := by
  refine ⟨(C2_resolution_memoized Fixtures.apiResolves [("location_id", "L1")]).1 "L1" rfl (by decide),
          (C2_resolution_memoized Fixtures.apiResolves [("route_group_id", "R1")]).2.1 "R1" rfl (by decide),
          (C2_resolution_memoized Fixtures.apiResolves [("user_id", "P1")]).2.2.1 "P1" rfl (by decide),
          (C2_resolution_memoized Fixtures.apiResolves [("workspace_id", "W1")]).2.2.2.1 "W1" rfl (by decide),
          ?_⟩
  have h := ((C2_resolution_memoized Fixtures.apiResolves [("location_name", "Sede X")]).2.2.2.2.1
      "Sede X" "L1" (by decide) rfl (by decide) rfl).1
  simpa using h

/-- C10: an out-of-range `action_id` (negative or at least the plan length)
makes `run_single_action` raise `ValueError` before `action_state.json` is
read or written, leaving the persisted action state unchanged. -/
theorem C10_out_of_range_atomic (api : V21.Api) (policy : V21.Policy)
    (locations : List V21.LocationRecord) (users : List V21.UserRecord)
    (workspaces : List V21.WorkspaceRecord) (file_state : Option V21.ActionState)
    (now : String) (action_id : Int) (apply : Bool)
    (h : action_id < 0
      ∨ ((V21.build_plan locations users workspaces policy).length : Int) ≤ action_id) :
    V21.run_single_action api policy locations users workspaces file_state now action_id apply
      = (file_state, .error ("action_id out of range: " ++ toString action_id)) := by
  unfold V21.run_single_action
  rcases h with h | h
  · simp [h]
  · have h0 : ¬ action_id < 0 := by omega
    have hget : (V21.build_plan locations users workspaces policy)[action_id.toNat]? = none := by
      have hlen := List.get?_eq_none.mpr
        (show (V21.build_plan locations users workspaces policy).length ≤ action_id.toNat by omega)
      simpa [List.get?_eq_getElem?] using hlen
    simp [h0, hget]

/-- Witness for C10 at an empty plan and `action_id = 0`. -/
theorem C10_witness :
    V21.run_single_action Fixtures.apiResolves Fixtures.polFix [] [] [] none "t0" 0 true
      = (none, .error "action_id out of range: 0") := by
  have h := C10_out_of_range_atomic Fixtures.apiResolves Fixtures.polFix [] [] [] none "t0" 0 true
      (Or.inr (by decide))
  simpa using h

/-- C3: in `run_single_action` with `apply=True`, any exception raised while
applying the stage (including the "after" snapshot read) is caught,
stringified and stored as the action's error instead of propagating; the
recorded per-action status is exactly `failed` on error, `applied` on
successful apply, `previewed` when `apply=False`; exactly one apply attempt is
made, with no retry and no rollback call. -/
theorem C3_apply_error_recording (api : V21.Api) (policy : V21.Policy)
    (locations : List V21.LocationRecord) (users : List V21.UserRecord)
    (workspaces : List V21.WorkspaceRecord) (file_state : Option V21.ActionState)
    (now : String) (action_id : Int) (action : V21.PlannedAction) (p1 : Payload) (before : Val)
    (hpos : 0 ≤ action_id)
    (hget : (V21.build_plan locations users workspaces policy)[action_id.toNat]? = some action)
    (hbefore : V21.read_current_state api action.stage action.payload = (p1, Except.ok before)) :
    (∀ p2 e, V21.apply_action api policy action.stage p1 = (p2, Except.error e) →
        V21.run_single_action api policy locations users workspaces file_state now action_id true
          = (some (assocSet (file_state.getD []) (toString action_id)
                ⟨action.stage, action.entity_key, "failed", now, some e⟩),
             Except.ok ⟨action.entity_key, action.stage, p2, before, before, false, some e, []⟩))
    ∧ (∀ p2 calls p3 after, V21.apply_action api policy action.stage p1 = (p2, Except.ok calls) →
        V21.read_current_state api action.stage p2 = (p3, Except.ok after) →
        V21.run_single_action api policy locations users workspaces file_state now action_id true
          = (some (assocSet (file_state.getD []) (toString action_id)
                ⟨action.stage, action.entity_key, "applied", now, none⟩),
             Except.ok ⟨action.entity_key, action.stage, p3, before, after,
                decide (before ≠ after), none, calls⟩))
    ∧ (∀ p2 calls p3 e, V21.apply_action api policy action.stage p1 = (p2, Except.ok calls) →
        V21.read_current_state api action.stage p2 = (p3, Except.error e) →
        V21.run_single_action api policy locations users workspaces file_state now action_id true
          = (some (assocSet (file_state.getD []) (toString action_id)
                ⟨action.stage, action.entity_key, "failed", now, some e⟩),
             Except.ok ⟨action.entity_key, action.stage, p3, before, before, false, some e, calls⟩))
    ∧ (V21.run_single_action api policy locations users workspaces file_state now action_id false
          = (some (assocSet (file_state.getD []) (toString action_id)
                ⟨action.stage, action.entity_key, "previewed", now, none⟩),
             Except.ok ⟨action.entity_key, action.stage, p1, before, before, false, none, []⟩)) := by
  have h0 : ¬ action_id < 0 := by omega
  refine ⟨?_, ?_, ?_, ?_⟩
  · intro p2 e happ
    unfold V21.run_single_action
    simp [h0, hget, hbefore, happ]
  · intro p2 calls p3 after happ hafter
    unfold V21.run_single_action
    simp [h0, hget, hbefore, happ, hafter]
  · intro p2 calls p3 e happ hafter
    unfold V21.run_single_action
    simp [h0, hget, hbefore, happ, hafter]
  · unfold V21.run_single_action
    simp [h0, hget, hbefore]

/-- Witness for C3: applying the PSTN stage with no resolvable route group is
caught and recorded as a `failed` item rather than propagating. -/
theorem C3_witness :
    V21.run_single_action Fixtures.apiResolves Fixtures.polFix [Fixtures.locFix] [] [] none "t0" 2 true
      = (some [(toString (2 : Int),
            ⟨V21.Stage.LOCATION_PSTN_CONFIGURE, "Sede X", "failed", "t0",
             some "route_group_id is required (direct value or resolvable route_group_name)"⟩)],
         Except.ok ⟨"Sede X", V21.Stage.LOCATION_PSTN_CONFIGURE,
            [("location_name", "Sede X"), ("default_outgoing_profile", "profile_2"), ("location_id", "L1")],
            obj1 "pstn_options" (Val.arr .nil), obj1 "pstn_options" (Val.arr .nil), false,
            some "route_group_id is required (direct value or resolvable route_group_name)", []⟩) := by
  exact (C3_apply_error_recording Fixtures.apiResolves Fixtures.polFix [Fixtures.locFix] [] [] none "t0" 2
      ⟨V21.EntityType.LOCATION, "Sede X", V21.Stage.LOCATION_PSTN_CONFIGURE, "apply",
        "Configurar PSTN en sede", [("location_name", "Sede X"), ("default_outgoing_profile", "profile_2")]⟩
      [("location_name", "Sede X"), ("default_outgoing_profile", "profile_2"), ("location_id", "L1")]
      (obj1 "pstn_options" (Val.arr .nil)) (by decide) (by decide) rfl).1
      [("location_name", "Sede X"), ("default_outgoing_profile", "profile_2"), ("location_id", "L1")]
      "route_group_id is required (direct value or resolvable route_group_name)" rfl

/-- C4 counterexample: for the PSTN-configure stage (and the other stages that
go through `_require_location_id`), an absent location does NOT yield a `None`
snapshot: `_read_current_state` raises `ValueError`, which propagates out of
`run_single_action` — refuting "for every stage". -/
theorem C4_counterexample :
    V21.read_current_state Fixtures.apiAbsent V21.Stage.LOCATION_PSTN_CONFIGURE
        [("location_name", "Sede X")]
      = ([("location_name", "Sede X")], Except.error "location not found: Sede X")
    ∧ V21.run_single_action Fixtures.apiAbsent Fixtures.polFix [Fixtures.locFix] [] [] none "t0" 2 false
      = (none, Except.error "location not found: Sede X") := by
  constructor
  · rfl
  · rfl

/-- C4 (amended): the "before" snapshot swallows absence as a `None` snapshot
for the create-and-activate, route-group-resolve, user and workspace stages,
but the five location stages that use `_require_location_id` raise
`ValueError` on an absent location, and that error propagates out of
`run_single_action` with no state write; the "after" snapshot is captured only
when `apply=True`, and `changed` equals `before != after`. -/
theorem C4_amended_best_effort (api : V21.Api) (policy : V21.Policy)
    (locations : List V21.LocationRecord) (users : List V21.UserRecord)
    (workspaces : List V21.WorkspaceRecord) (file_state : Option V21.ActionState)
    (now : String) (action_id : Int) (p : Payload) :
    (∀ p1 r n, V21.resolve_location_id api p = (p1, r, n) → pyTruthy r = false →
        V21.read_current_state api V21.Stage.LOCATION_CREATE_AND_ACTIVATE p
          = (p1, Except.ok (obj2 "location" Val.null "calling" Val.null)))
    ∧ (∀ p1 r n, V21.resolve_route_group_id api p = (p1, r, n) →
        V21.read_current_state api V21.Stage.LOCATION_ROUTE_GROUP_RESOLVE p
          = (p1, Except.ok (obj1 "route_group_id" (optStrVal r))))
    ∧ (∀ stage, stage ∈ [V21.Stage.USER_LEGACY_INTERCOM_SECONDARY,
          V21.Stage.USER_LEGACY_FORWARD_PREFIX_53, V21.Stage.USER_OUTGOING_PERMISSION_OVERRIDE] →
        ∀ p1 r n, V21.resolve_person_id api p = (p1, r, n) → pyTruthy r = false →
        V21.read_current_state api stage p = (p1, Except.ok (obj1 "person" Val.null)))
    ∧ (∀ stage, stage ∈ [V21.Stage.WORKSPACE_LEGACY_INTERCOM_SECONDARY,
          V21.Stage.WORKSPACE_LEGACY_FORWARD_PREFIX_53, V21.Stage.WORKSPACE_OUTGOING_PERMISSION_OVERRIDE] →
        ∀ p1 r n, V21.resolve_workspace_id api p = (p1, r, n) → pyTruthy r = false →
        V21.read_current_state api stage p = (p1, Except.ok (obj1 "workspace" Val.null)))
    ∧ (∀ stage, stage ∈ [V21.Stage.LOCATION_PSTN_CONFIGURE, V21.Stage.LOCATION_NUMBERS_ADD_DISABLED,
          V21.Stage.LOCATION_MAIN_DDI_ASSIGN, V21.Stage.LOCATION_INTERNAL_CALLING_CONFIG,
          V21.Stage.LOCATION_OUTGOING_PERMISSION_DEFAULT] →
        ∀ p1 e n, V21.require_location_id api p = (p1, Except.error e, n) →
        V21.read_current_state api stage p = (p1, Except.error e))
    ∧ (∀ action p1 e apply, 0 ≤ action_id →
        (V21.build_plan locations users workspaces policy)[action_id.toNat]? = some action →
        V21.read_current_state api action.stage action.payload = (p1, Except.error e) →
        V21.run_single_action api policy locations users workspaces file_state now action_id apply
          = (file_state, Except.error e))
    ∧ (∀ action p1 before, 0 ≤ action_id →
        (V21.build_plan locations users workspaces policy)[action_id.toNat]? = some action →
        V21.read_current_state api action.stage action.payload = (p1, Except.ok before) →
        V21.run_single_action api policy locations users workspaces file_state now action_id false
          = (some (assocSet (file_state.getD []) (toString action_id)
                ⟨action.stage, action.entity_key, "previewed", now, none⟩),
             Except.ok ⟨action.entity_key, action.stage, p1, before, before, false, none, []⟩))
    ∧ (∀ apply st res,
        V21.run_single_action api policy locations users workspaces file_state now action_id apply
          = (st, Except.ok res) →
        res.changed = decide (res.before ≠ res.after)) := by
  refine ⟨?_, ?_, ?_, ?_, ?_, ?_, ?_, ?_⟩
  · intro p1 r n hres hfalse
    simp [V21.read_current_state, hres, hfalse]
  · intro p1 r n hres
    simp [V21.read_current_state, hres]
  · intro stage hstage p1 r n hres hfalse
    simp only [List.mem_cons, List.not_mem_nil, or_false] at hstage
    rcases hstage with rfl | rfl | rfl <;> simp [V21.read_current_state, hres, hfalse]
  · intro stage hstage p1 r n hres hfalse
    simp only [List.mem_cons, List.not_mem_nil, or_false] at hstage
    rcases hstage with rfl | rfl | rfl <;> simp [V21.read_current_state, hres, hfalse]
  · intro stage hstage p1 e n hreq
    simp only [List.mem_cons, List.not_mem_nil, or_false] at hstage
    rcases hstage with rfl | rfl | rfl | rfl | rfl <;> simp [V21.read_current_state, hreq]
  · intro action p1 e apply hpos hget hread
    have h0 : ¬ action_id < 0 := by omega
    unfold V21.run_single_action
    simp [h0, hget, hread]
  · intro action p1 before hpos hget hread
    have h0 : ¬ action_id < 0 := by omega
    unfold V21.run_single_action
    simp [h0, hget, hread]
  · intro apply st res hres
    unfold V21.run_single_action at hres
    by_cases h0 : action_id < 0
    · simp [h0] at hres
    · rcases hg : (V21.build_plan locations users workspaces policy)[action_id.toNat]? with _ | action
      · simp [h0, hg] at hres
      · rcases hr : V21.read_current_state api action.stage action.payload with ⟨p1, br⟩
        cases br with
        | error e => simp [h0, hg, hr] at hres
        | ok before =>
            simp [h0, hg, hr] at hres
            obtain ⟨hst, hres'⟩ := hres
            subst hres'
            simp [decide_not]

/-- Witness for C4 (amended) at concrete absent entities. -/
theorem C4_amended_witness :
    V21.read_current_state Fixtures.apiAbsent V21.Stage.LOCATION_CREATE_AND_ACTIVATE
        [("location_name", "Sede X")]
      = ([("location_name", "Sede X")], Except.ok (obj2 "location" Val.null "calling" Val.null))
    ∧ V21.read_current_state Fixtures.apiAbsent V21.Stage.USER_LEGACY_FORWARD_PREFIX_53
        [("user_email", "u@x.com")]
      = ([("user_email", "u@x.com")], Except.ok (obj1 "person" Val.null))
    ∧ V21.read_current_state Fixtures.apiAbsent V21.Stage.LOCATION_MAIN_DDI_ASSIGN
        [("location_name", "Sede X")]
      = ([("location_name", "Sede X")], Except.error "location not found: Sede X")
    ∧ V21.run_single_action Fixtures.apiAbsent Fixtures.polFix [Fixtures.locFix] [] [] none "t0" 2 true
      = (none, Except.error "location not found: Sede X") := by
  have h := C4_amended_best_effort Fixtures.apiAbsent Fixtures.polFix [Fixtures.locFix] [] [] none "t0" 2
      [("location_name", "Sede X")]
  have h2 := C4_amended_best_effort Fixtures.apiAbsent Fixtures.polFix [Fixtures.locFix] [] [] none "t0" 2
      [("user_email", "u@x.com")]
  refine ⟨h.1 [("location_name", "Sede X")] none 1 rfl rfl,
          h2.2.2.1 V21.Stage.USER_LEGACY_FORWARD_PREFIX_53 (by decide)
            [("user_email", "u@x.com")] none 1 rfl rfl,
          h.2.2.2.2.1 V21.Stage.LOCATION_MAIN_DDI_ASSIGN (by decide)
            [("location_name", "Sede X")] "location not found: Sede X" 1 rfl,
          h.2.2.2.2.2.1
            ⟨V21.EntityType.LOCATION, "Sede X", V21.Stage.LOCATION_PSTN_CONFIGURE, "apply",
              "Configurar PSTN en sede",
              [("location_name", "Sede X"), ("default_outgoing_profile", "profile_2")]⟩
            [("location_name", "Sede X"), ("default_outgoing_profile", "profile_2")]
            "location not found: Sede X" true (by decide) (by decide) rfl⟩

/-- C8: a successful SpaceOdT `run_exports` writes exactly one JSON file per
module of the (possibly filtered) fixed module list, and unless `--no-report`
a report whose `total_modules` equals the number of exported modules; with
`--skip-group-members`, `group_members` is absent from the results and no file
is written for it, the other modules being unaffected. -/
theorem C8_cli_export_files (out_dir : String) (no_report skip_group_members : Bool)
    (env : Cli.Env) (results : List Cli.ModuleExportResult) (files : List Cli.FileWrite)
    (report : Option Cli.Report)
    (hrun : Cli.run_exports out_dir no_report skip_group_members env
        = Except.ok (results, files, report)) :
    files.map (·.path)
      = (Cli.module_list skip_group_members).map (fun module => out_dir ++ "/" ++ module ++ ".json")
    ∧ results.map (·.module) = Cli.module_list skip_group_members
    ∧ (no_report = false → report = some ⟨results, results.length, (results.map (·.count)).sum⟩)
    ∧ (no_report = true → report = none)
    ∧ (skip_group_members = true →
        "group_members" ∉ results.map (·.module)
          ∧ ∀ f ∈ files, f.path ≠ out_dir ++ "/" ++ "group_members" ++ ".json") := by
  unfold Cli.run_exports at hrun
  rcases ht : Cli.resolve_token env with e | tok
  · rw [ht] at hrun
    simp at hrun
  · rw [ht] at hrun
    by_cases hnr : no_report
    · simp [hnr] at hrun
      obtain ⟨hres, hfiles, hrep⟩ := hrun
      subst hres hfiles hrep
      refine ⟨by simp [List.map_map, Cli.export_module],
              by simp only [List.map_map]; exact List.map_id' _,
              by simp [hnr], fun _ => rfl, ?_⟩
      · intro hskip
        constructor
        · subst hskip
          simp [List.map_map, Cli.export_module, Cli.module_list, Cli.FIXED_MODULES]
        · intro f hf heq
          obtain ⟨m, hm, hfm⟩ := List.mem_map.mp hf
          have hfp : f.path = out_dir ++ "/" ++ m ++ ".json" := by rw [← hfm]; rfl
          rw [hfp] at heq
          have hpath' : out_dir ++ "/" ++ m ++ ".json"
              = out_dir ++ "/" ++ "group_members" ++ ".json" := heq
          have hm' : m = "group_members" :=
            string_append_left_cancel (out_dir ++ "/") m "group_members"
              (string_append_right_cancel _ _ ".json" hpath')
          subst hm' hskip
          simp [Cli.module_list, Cli.FIXED_MODULES] at hm
    · simp [hnr] at hrun
      obtain ⟨hres, hfiles, hrep⟩ := hrun
      subst hres hfiles hrep
      refine ⟨by simp [List.map_map, Cli.export_module],
              by simp only [List.map_map]; exact List.map_id' _,
              by simp, by simp [hnr], ?_⟩
      · intro hskip
        constructor
        · subst hskip
          simp [List.map_map, Cli.export_module, Cli.module_list, Cli.FIXED_MODULES]
        · intro f hf heq
          obtain ⟨m, hm, hfm⟩ := List.mem_map.mp hf
          have hfp : f.path = out_dir ++ "/" ++ m ++ ".json" := by rw [← hfm]; rfl
          rw [hfp] at heq
          have hpath' : out_dir ++ "/" ++ m ++ ".json"
              = out_dir ++ "/" ++ "group_members" ++ ".json" := heq
          have hm' : m = "group_members" :=
            string_append_left_cancel (out_dir ++ "/") m "group_members"
              (string_append_right_cancel _ _ ".json" hpath')
          subst hm' hskip
          simp [Cli.module_list, Cli.FIXED_MODULES] at hm

theorem stepModule_mono
    (f : ExportRunner.ModuleSpec → Except ExportRunner.ExcInfo (ExportRunner.ModuleResult × Nat))
    (enabled_modules : List String) (acc : ExportRunner.RunAcc) (spec : ExportRunner.ModuleSpec) :
    (∀ x, x ∈ acc.files → x ∈ (ExportRunner.stepModule f enabled_modules acc spec).files)
    ∧ (∀ row, row ∈ acc.status_rows → row ∈ (ExportRunner.stepModule f enabled_modules acc spec).status_rows)
    ∧ (∀ k, (assocGet acc.module_counts k).isSome = true →
        (assocGet (ExportRunner.stepModule f enabled_modules acc spec).module_counts k).isSome = true) := by
  unfold ExportRunner.stepModule
  by_cases he : spec.name ∈ enabled_modules
  · rcases hr : f spec with exc | res
    · refine ⟨?_, ?_, ?_⟩
      · intro x hx; simp [he, hr, hx]
      · intro row hrow; simp [he, hr, hrow]
      · intro k hk; simpa [he, hr] using assocGet_assocSet_isSome _ _ _ _ hk
    · refine ⟨?_, ?_, ?_⟩
      · intro x hx; simp [he, hr, hx]
      · intro row hrow; simp [he, hr, hrow]
      · intro k hk; simpa [he, hr] using assocGet_assocSet_isSome _ _ _ _ hk
  · simp only [he, if_false]
    exact ⟨fun _ h => h, fun _ h => h, fun _ h => h⟩

theorem stepArtifact_mono
    (f : ExportRunner.ArtifactSpec → List (String × List Val) →
        Except ExportRunner.ExcInfo (ExportRunner.ModuleResult × Nat))
    (enabled_modules : List String) (acc : ExportRunner.RunAcc) (spec : ExportRunner.ArtifactSpec) :
    (∀ x, x ∈ acc.files → x ∈ (ExportRunner.stepArtifact f enabled_modules acc spec).files)
    ∧ (∀ row, row ∈ acc.status_rows → row ∈ (ExportRunner.stepArtifact f enabled_modules acc spec).status_rows)
    ∧ (∀ k, (assocGet acc.module_counts k).isSome = true →
        (assocGet (ExportRunner.stepArtifact f enabled_modules acc spec).module_counts k).isSome = true) := by
  unfold ExportRunner.stepArtifact
  by_cases he : spec.module ∈ enabled_modules
  · rcases hr : f spec acc.cache_entities with exc | res
    · refine ⟨?_, ?_, ?_⟩
      · intro x hx; simp [he, hr, hx]
      · intro row hrow; simp [he, hr, hrow]
      · intro k hk; simpa [he, hr] using assocGet_assocSet_isSome _ _ _ _ hk
    · refine ⟨?_, ?_, ?_⟩
      · intro x hx; simp [he, hr, hx]
      · intro row hrow; simp [he, hr, hrow]
      · intro k hk; simpa [he, hr] using assocGet_assocSet_isSome _ _ _ _ hk
  · simp only [he, if_false]
    exact ⟨fun _ h => h, fun _ h => h, fun _ h => h⟩

theorem foldl_runAcc_mono {β : Type} (g : ExportRunner.RunAcc → β → ExportRunner.RunAcc)
    (hg : ∀ acc b,
      (∀ x, x ∈ acc.files → x ∈ (g acc b).files)
      ∧ (∀ row, row ∈ acc.status_rows → row ∈ (g acc b).status_rows)
      ∧ (∀ k, (assocGet acc.module_counts k).isSome = true →
          (assocGet (g acc b).module_counts k).isSome = true)) :
    ∀ (l : List β) (acc : ExportRunner.RunAcc),
      (∀ x, x ∈ acc.files → x ∈ (l.foldl g acc).files)
      ∧ (∀ row, row ∈ acc.status_rows → row ∈ (l.foldl g acc).status_rows)
      ∧ (∀ k, (assocGet acc.module_counts k).isSome = true →
          (assocGet (l.foldl g acc).module_counts k).isSome = true) := by
  intro l
  induction l with
  | nil => exact fun acc => ⟨fun _ h => h, fun _ h => h, fun _ h => h⟩
  | cons hd tl ih =>
      intro acc
      refine ⟨?_, ?_, ?_⟩
      · intro x hx; exact (ih (g acc hd)).1 x ((hg acc hd).1 x hx)
      · intro row hrow; exact (ih (g acc hd)).2.1 row ((hg acc hd).2.1 row hrow)
      · intro k hk; exact (ih (g acc hd)).2.2 k ((hg acc hd).2.2 k hk)

theorem foldModule_establishes
    (f : ExportRunner.ModuleSpec → Except ExportRunner.ExcInfo (ExportRunner.ModuleResult × Nat))
    (enabled_modules : List String)
    (hname : ∀ s r, f s = Except.ok r → r.1.module = s.name) :
    ∀ (specs : List ExportRunner.ModuleSpec) (acc : ExportRunner.RunAcc)
      (s : ExportRunner.ModuleSpec), s ∈ specs → s.name ∈ enabled_modules →
      (∃ row ∈ (specs.foldl (ExportRunner.stepModule f enabled_modules) acc).status_rows,
          row.module = s.name)
      ∧ (assocGet (specs.foldl (ExportRunner.stepModule f enabled_modules) acc).module_counts
          s.name).isSome = true
      ∧ (∀ exc, f s = Except.error exc →
          (ExportRunner.ExportFile.json s.name, ([] : List Val))
              ∈ (specs.foldl (ExportRunner.stepModule f enabled_modules) acc).files
          ∧ (ExportRunner.ExportFile.csv s.name, ([] : List Val))
              ∈ (specs.foldl (ExportRunner.stepModule f enabled_modules) acc).files
          ∧ (⟨s.name, s.list_path, exc.kind, exc.http_status, exc.message, 0, 0⟩ :
              ExportRunner.StatusRecord)
              ∈ (specs.foldl (ExportRunner.stepModule f enabled_modules) acc).status_rows) := by
  intro specs
  induction specs with
  | nil => intro acc s hs; exact absurd hs (List.not_mem_nil s)
  | cons hd tl ih =>
      intro acc s hs he
      rcases List.mem_cons.mp hs with rfl | hs'
      · have hmono := foldl_runAcc_mono (ExportRunner.stepModule f enabled_modules)
            (fun a b => stepModule_mono f enabled_modules a b) tl
            (ExportRunner.stepModule f enabled_modules acc s)
        rcases hr : f s with exc0 | res0
        · have hfile1 : (ExportRunner.ExportFile.json s.name, ([] : List Val))
              ∈ (ExportRunner.stepModule f enabled_modules acc s).files := by
            simp [ExportRunner.stepModule, he, hr]
          have hfile2 : (ExportRunner.ExportFile.csv s.name, ([] : List Val))
              ∈ (ExportRunner.stepModule f enabled_modules acc s).files := by
            simp [ExportRunner.stepModule, he, hr]
          have hrow1 : (⟨s.name, s.list_path, exc0.kind, exc0.http_status, exc0.message, 0, 0⟩ :
              ExportRunner.StatusRecord)
              ∈ (ExportRunner.stepModule f enabled_modules acc s).status_rows := by
            simp [ExportRunner.stepModule, he, hr]
          have hcnt1 : (assocGet (ExportRunner.stepModule f enabled_modules acc s).module_counts
              s.name).isSome = true := by
            simp [ExportRunner.stepModule, he, hr, assocGet_assocSet]
          refine ⟨⟨_, hmono.2.1 _ hrow1, rfl⟩, hmono.2.2 _ hcnt1, ?_⟩
          intro exc hexc
          have hx : exc0 = exc := by simpa using hexc
          subst hx
          exact ⟨hmono.1 _ hfile1, hmono.1 _ hfile2, hmono.2.1 _ hrow1⟩
        · have hrow1 : (⟨s.name, s.list_path, "ok", none, "", res0.1.count, res0.2⟩ :
              ExportRunner.StatusRecord)
              ∈ (ExportRunner.stepModule f enabled_modules acc s).status_rows := by
            simp [ExportRunner.stepModule, he, hr]
          have hcnt1 : (assocGet (ExportRunner.stepModule f enabled_modules acc s).module_counts
              s.name).isSome = true := by
            have hmod := hname s res0 hr
            simp [ExportRunner.stepModule, he, hr, hmod, assocGet_assocSet]
          refine ⟨⟨_, hmono.2.1 _ hrow1, rfl⟩, hmono.2.2 _ hcnt1, ?_⟩
          intro exc hexc
          exact absurd hexc (by simp)
      · exact ih (ExportRunner.stepModule f enabled_modules acc hd) s hs' he

theorem foldArtifact_establishes
    (f : ExportRunner.ArtifactSpec → List (String × List Val) →
        Except ExportRunner.ExcInfo (ExportRunner.ModuleResult × Nat))
    (enabled_modules : List String)
    (hname : ∀ s c r, f s c = Except.ok r → r.1.module = s.module) :
    ∀ (specs : List ExportRunner.ArtifactSpec) (acc : ExportRunner.RunAcc)
      (s : ExportRunner.ArtifactSpec), s ∈ specs → s.module ∈ enabled_modules →
      (∃ row ∈ (specs.foldl (ExportRunner.stepArtifact f enabled_modules) acc).status_rows,
          row.module = s.module)
      ∧ (assocGet (specs.foldl (ExportRunner.stepArtifact f enabled_modules) acc).module_counts
          s.module).isSome = true
      ∧ (∀ exc, (∀ c, f s c = Except.error exc) →
          (ExportRunner.ExportFile.json s.module, ([] : List Val))
              ∈ (specs.foldl (ExportRunner.stepArtifact f enabled_modules) acc).files
          ∧ (ExportRunner.ExportFile.csv s.module, ([] : List Val))
              ∈ (specs.foldl (ExportRunner.stepArtifact f enabled_modules) acc).files
          ∧ (⟨s.module, s.method_path, exc.kind, exc.http_status, exc.message, 0, 0⟩ :
              ExportRunner.StatusRecord)
              ∈ (specs.foldl (ExportRunner.stepArtifact f enabled_modules) acc).status_rows) := by
  intro specs
  induction specs with
  | nil => intro acc s hs; exact absurd hs (List.not_mem_nil s)
  | cons hd tl ih =>
      intro acc s hs he
      rcases List.mem_cons.mp hs with rfl | hs'
      · have hmono := foldl_runAcc_mono (ExportRunner.stepArtifact f enabled_modules)
            (fun a b => stepArtifact_mono f enabled_modules a b) tl
            (ExportRunner.stepArtifact f enabled_modules acc s)
        rcases hr : f s acc.cache_entities with exc0 | res0
        · have hfile1 : (ExportRunner.ExportFile.json s.module, ([] : List Val))
              ∈ (ExportRunner.stepArtifact f enabled_modules acc s).files := by
            simp [ExportRunner.stepArtifact, he, hr]
          have hfile2 : (ExportRunner.ExportFile.csv s.module, ([] : List Val))
              ∈ (ExportRunner.stepArtifact f enabled_modules acc s).files := by
            simp [ExportRunner.stepArtifact, he, hr]
          have hrow1 : (⟨s.module, s.method_path, exc0.kind, exc0.http_status, exc0.message, 0, 0⟩ :
              ExportRunner.StatusRecord)
              ∈ (ExportRunner.stepArtifact f enabled_modules acc s).status_rows := by
            simp [ExportRunner.stepArtifact, he, hr]
          have hcnt1 : (assocGet (ExportRunner.stepArtifact f enabled_modules acc s).module_counts
              s.module).isSome = true := by
            simp [ExportRunner.stepArtifact, he, hr, assocGet_assocSet]
          refine ⟨⟨_, hmono.2.1 _ hrow1, rfl⟩, hmono.2.2 _ hcnt1, ?_⟩
          intro exc hexc
          have hx : exc0 = exc := by simpa using hr.symm.trans (hexc acc.cache_entities)
          subst hx
          exact ⟨hmono.1 _ hfile1, hmono.1 _ hfile2, hmono.2.1 _ hrow1⟩
        · have hmod := hname s acc.cache_entities res0 hr
          have hrow1 : (⟨res0.1.module, res0.1.method, "ok", none, "", res0.1.count, res0.2⟩ :
              ExportRunner.StatusRecord)
              ∈ (ExportRunner.stepArtifact f enabled_modules acc s).status_rows := by
            simp [ExportRunner.stepArtifact, he, hr]
          have hcnt1 : (assocGet (ExportRunner.stepArtifact f enabled_modules acc s).module_counts
              s.module).isSome = true := by
            simp [ExportRunner.stepArtifact, he, hr, hmod, assocGet_assocSet]
          refine ⟨⟨_, hmono.2.1 _ hrow1, hmod⟩, hmono.2.2 _ hcnt1, ?_⟩
          intro exc hexc
          exact absurd (hr.symm.trans (hexc acc.cache_entities)) (by simp)
      · exact ih (ExportRunner.stepArtifact f enabled_modules acc hd) s hs' he

/-- C6: in `Space_OdT.export_runner.run_exports`, a failing fetch never aborts
the run: the failing module still gets an empty JSON and CSV export, a status
row classifying the exception with count 0, and a `module_counts` entry, while
every other enabled module is still processed — every enabled module ends the
run with both a status row and a `module_counts` entry. -/
theorem C6_export_isolation (module_specs : List ExportRunner.ModuleSpec)
    (artifact_specs : List ExportRunner.ArtifactSpec)
    (run_spec_fn : ExportRunner.ModuleSpec → Except ExportRunner.ExcInfo (ExportRunner.ModuleResult × Nat))
    (run_artifact_fn : ExportRunner.ArtifactSpec → List (String × List Val) →
        Except ExportRunner.ExcInfo (ExportRunner.ModuleResult × Nat))
    (enabled_modules : List String) (write_cache write_report : Bool)
    (hname : ∀ s r, run_spec_fn s = Except.ok r → r.1.module = s.name)
    (haname : ∀ s c r, run_artifact_fn s c = Except.ok r → r.1.module = s.module) :
    (∀ s ∈ module_specs, s.name ∈ enabled_modules →
      (∃ row ∈ (ExportRunner.run_exports module_specs artifact_specs run_spec_fn run_artifact_fn
          enabled_modules write_cache write_report).status_rows, row.module = s.name)
      ∧ (assocGet (ExportRunner.run_exports module_specs artifact_specs run_spec_fn run_artifact_fn
          enabled_modules write_cache write_report).module_counts s.name).isSome = true
      ∧ (∀ exc, run_spec_fn s = Except.error exc →
          (ExportRunner.ExportFile.json s.name, ([] : List Val))
            ∈ (ExportRunner.run_exports module_specs artifact_specs run_spec_fn run_artifact_fn
                enabled_modules write_cache write_report).files
          ∧ (ExportRunner.ExportFile.csv s.name, ([] : List Val))
            ∈ (ExportRunner.run_exports module_specs artifact_specs run_spec_fn run_artifact_fn
                enabled_modules write_cache write_report).files
          ∧ (⟨s.name, s.list_path, exc.kind, exc.http_status, exc.message, 0, 0⟩ :
              ExportRunner.StatusRecord)
            ∈ (ExportRunner.run_exports module_specs artifact_specs run_spec_fn run_artifact_fn
                enabled_modules write_cache write_report).status_rows))
    ∧ (∀ s ∈ artifact_specs, s.module ∈ enabled_modules →
      (∃ row ∈ (ExportRunner.run_exports module_specs artifact_specs run_spec_fn run_artifact_fn
          enabled_modules write_cache write_report).status_rows, row.module = s.module)
      ∧ (assocGet (ExportRunner.run_exports module_specs artifact_specs run_spec_fn run_artifact_fn
          enabled_modules write_cache write_report).module_counts s.module).isSome = true
      ∧ (∀ exc, (∀ c, run_artifact_fn s c = Except.error exc) →
          (ExportRunner.ExportFile.json s.module, ([] : List Val))
            ∈ (ExportRunner.run_exports module_specs artifact_specs run_spec_fn run_artifact_fn
                enabled_modules write_cache write_report).files
          ∧ (ExportRunner.ExportFile.csv s.module, ([] : List Val))
            ∈ (ExportRunner.run_exports module_specs artifact_specs run_spec_fn run_artifact_fn
                enabled_modules write_cache write_report).files
          ∧ (⟨s.module, s.method_path, exc.kind, exc.http_status, exc.message, 0, 0⟩ :
              ExportRunner.StatusRecord)
            ∈ (ExportRunner.run_exports module_specs artifact_specs run_spec_fn run_artifact_fn
                enabled_modules write_cache write_report).status_rows)) := by
  constructor
  · intro s hs he
    have h1 := foldModule_establishes run_spec_fn enabled_modules hname module_specs
        ⟨[], [], [], []⟩ s hs he
    have hmono := foldl_runAcc_mono (ExportRunner.stepArtifact run_artifact_fn enabled_modules)
        (fun a b => stepArtifact_mono run_artifact_fn enabled_modules a b) artifact_specs
        (module_specs.foldl (ExportRunner.stepModule run_spec_fn enabled_modules) ⟨[], [], [], []⟩)
    obtain ⟨⟨row, hrow, hrowm⟩, hcnt, herr⟩ := h1
    refine ⟨⟨row, hmono.2.1 _ hrow, hrowm⟩, hmono.2.2 _ hcnt, ?_⟩
    intro exc hexc
    obtain ⟨hf1, hf2, hr3⟩ := herr exc hexc
    exact ⟨hmono.1 _ hf1, hmono.1 _ hf2, hmono.2.1 _ hr3⟩
  · intro s hs he
    exact foldArtifact_establishes run_artifact_fn enabled_modules haname artifact_specs
        (module_specs.foldl (ExportRunner.stepModule run_spec_fn enabled_modules) ⟨[], [], [], []⟩)
        s hs he

/-- Witness for C6: with a failing `people` fetch and a succeeding `groups`
fetch, the run records the failure row, writes the empty export, and still
gives `groups` its counts entry. -/
theorem C6_witness :
    ((⟨"people", "people.list", "error", some 500, "boom", 0, 0⟩ : ExportRunner.StatusRecord)
        ∈ (ExportRunner.run_exports [Fixtures.specBad, Fixtures.specGood] []
            Fixtures.runSpecFix Fixtures.runArtifactFix ["people", "groups"] false false).status_rows)
    ∧ ((ExportRunner.ExportFile.json "people", ([] : List Val))
        ∈ (ExportRunner.run_exports [Fixtures.specBad, Fixtures.specGood] []
            Fixtures.runSpecFix Fixtures.runArtifactFix ["people", "groups"] false false).files)
    ∧ ((assocGet (ExportRunner.run_exports [Fixtures.specBad, Fixtures.specGood] []
            Fixtures.runSpecFix Fixtures.runArtifactFix ["people", "groups"] false false).module_counts
          "groups").isSome = true) := by
  have hname : ∀ s r, Fixtures.runSpecFix s = Except.ok r → r.1.module = s.name := by
    intro s r h
    unfold Fixtures.runSpecFix at h
    by_cases hs : s.name = "people"
    · simp [hs] at h
    · simp [hs] at h
      subst h
      rfl
  have haname : ∀ s c r, Fixtures.runArtifactFix s c = Except.ok r → r.1.module = s.module := by
    intro s c r h
    unfold Fixtures.runArtifactFix at h
    simp at h
    subst h
    rfl
  have h := C6_export_isolation [Fixtures.specBad, Fixtures.specGood] [] Fixtures.runSpecFix
      Fixtures.runArtifactFix ["people", "groups"] false false hname haname
  have hbad := h.1 Fixtures.specBad (by decide) (by decide)
  have hgood := h.1 Fixtures.specGood (by decide) (by decide)
  have herr := hbad.2.2 ⟨"error", some 500, "boom"⟩ rfl
  exact ⟨herr.2.2, herr.1, hgood.2.1⟩

/-- Witness for C8: a concrete successful run with `--skip-group-members`. -/
theorem C8_witness :
    ([(⟨"organizations", "ok", 0, [".a/organizations.json"]⟩ : Cli.ModuleExportResult),
      ⟨"locations", "ok", 0, [".a/locations.json"]⟩,
      ⟨"people", "ok", 0, [".a/people.json"]⟩,
      ⟨"groups", "ok", 0, [".a/groups.json"]⟩].map (·.module) = Cli.module_list true)
    ∧ "group_members"
        ∉ ([(⟨"organizations", "ok", 0, [".a/organizations.json"]⟩ : Cli.ModuleExportResult),
            ⟨"locations", "ok", 0, [".a/locations.json"]⟩,
            ⟨"people", "ok", 0, [".a/people.json"]⟩,
            ⟨"groups", "ok", 0, [".a/groups.json"]⟩].map (·.module)) := by
  have h := C8_cli_export_files ".a" false true [("WEBEX_ACCESS_TOKEN", "t")]
      [⟨"organizations", "ok", 0, [".a/organizations.json"]⟩,
       ⟨"locations", "ok", 0, [".a/locations.json"]⟩,
       ⟨"people", "ok", 0, [".a/people.json"]⟩,
       ⟨"groups", "ok", 0, [".a/groups.json"]⟩]
      [⟨".a/organizations.json", obj2 "module" (Val.str "organizations") "items" (Val.arr .nil)⟩,
       ⟨".a/locations.json", obj2 "module" (Val.str "locations") "items" (Val.arr .nil)⟩,
       ⟨".a/people.json", obj2 "module" (Val.str "people") "items" (Val.arr .nil)⟩,
       ⟨".a/groups.json", obj2 "module" (Val.str "groups") "items" (Val.arr .nil)⟩]
      (some ⟨[⟨"organizations", "ok", 0, [".a/organizations.json"]⟩,
              ⟨"locations", "ok", 0, [".a/locations.json"]⟩,
              ⟨"people", "ok", 0, [".a/people.json"]⟩,
              ⟨"groups", "ok", 0, [".a/groups.json"]⟩], 4, 0⟩) rfl
  exact ⟨h.2.1, (h.2.2.2.2 rfl).1⟩
